import Mathlib

/-!
Verification of the Cudy-router scraping/normalization layer
(custom_components/cudy_router) against its natural-language specification.

The Python source is shallowly embedded: pure helpers become Lean functions,
Python exceptions become an explicit `Except PyErr` result, Python `None`
becomes `Option.none` (or the `PyVal.none` dynamic value where dictionaries
are modelled), and Python floats are modelled by exact fractions (`Frac`,
compared through their rational value `Frac.toRat`).  Every numeric value
appearing in the claims is a decimal fraction scaled by powers of two, for
which exact fraction arithmetic and IEEE-754 double arithmetic agree on
every equality tested here.
-/

/-- Python exception values, by class, as raised by the embedded code. -/
inductive PyErr where
  | valueError (msg : String)
  | typeError (msg : String)
  | attributeError (msg : String)
  | overflowError (msg : String)
deriving Repr, DecidableEq

deriving instance DecidableEq for Except

/-- An exact, unnormalized fraction with positive denominator by
construction; the model of a Python float value. -/
structure Frac where
  num : Int
  den : Int
deriving Repr, DecidableEq

/-- The rational value of a fraction; used to state equalities between
embedded float results and decimal constants from the spec. -/
def Frac.toRat (f : Frac) : ℚ := (f.num : ℚ) / (f.den : ℚ)

/-- Multiplication by an integer constant. -/
def Frac.mulInt (f : Frac) (k : Int) : Frac := ⟨f.num * k, f.den⟩

/-- Division by a positive integer constant. -/
def Frac.divInt (f : Frac) (k : Int) : Frac := ⟨f.num, f.den * k⟩

/-- Floor of a fraction (positive denominator). -/
def Frac.floorI (f : Frac) : Int := Int.fdiv f.num f.den

/-- Python truthiness of a string: empty is falsy. -/
def pyTruthyStr (s : String) : Bool := s != ""

/-- Python truthiness of an optional string (None is falsy). -/
def pyTruthyOptStr (s : Option String) : Bool :=
  match s with
  | none => false
  | some t => pyTruthyStr t

/-- Numeric value of a decimal digit character. -/
def digitVal (c : Char) : Nat := c.toNat - 48

/-- Numeric value of a hexadecimal digit character. -/
def hexVal (c : Char) : Nat :=
  if c.isDigit then c.toNat - 48
  else if 'a' ≤ c ∧ c ≤ 'f' then c.toNat - 87
  else c.toNat - 55

/-- Is a hexadecimal digit character. -/
def isHexDig (c : Char) : Bool :=
  c.isDigit || ('a' ≤ c && c ≤ 'f') || ('A' ≤ c && c ≤ 'F')

/-- Fold a list of decimal digit characters into a natural number. -/
def natOfDigits (l : List Char) : Nat := l.foldl (fun a c => 10 * a + digitVal c) 0

/-- Fold a list of hexadecimal digit characters into a natural number. -/
def natOfHexDigits (l : List Char) : Nat := l.foldl (fun a c => 16 * a + hexVal c) 0

/-- Ten to the power of the length of a list, as an integer. -/
def tenPowLen (l : List Char) : Int := l.foldl (fun a _ => a * 10) 1

/-- Characters accepted by the Python whitespace class (ASCII subset). -/
def isPySpace (c : Char) : Bool :=
  c == ' ' || c == '\t' || c == '\n' || c == '\r' || c == '\x0b' || c == '\x0c'

/-- Python str.strip() on a character list. -/
def stripList (cs : List Char) : List Char :=
  ((cs.dropWhile isPySpace).reverse.dropWhile isPySpace).reverse

/-- Lower-case a character list (the inputs here are ASCII). -/
def lowerList (cs : List Char) : List Char := cs.map Char.toLower

/-- Model of Python s.lower().endswith(t). -/
def lowerEndsWith (s : String) (t : String) : Bool :=
  t.toList.isSuffixOf (lowerList s.toList)

/-- Model of CPython float(s) on decimal literals: optional surrounding
whitespace, optional sign, digits with an optional fraction part and an
optional decimal exponent.  Exotic spellings (inf, nan, underscores) are not
needed by any claim and are treated as unparseable. Raises ValueError
exactly when CPython does on the inputs exercised here. -/
def pyFloat (s : String) : Except PyErr Frac :=
  let cs := stripList s.toList
  let (sign, cs1) : Int × List Char :=
    match cs with
    | '-' :: r => (-1, r)
    | '+' :: r => (1, r)
    | r => (1, r)
  let ip := cs1.takeWhile Char.isDigit
  let r1 := cs1.dropWhile Char.isDigit
  let (fp, r2) : List Char × List Char :=
    match r1 with
    | '.' :: r => (r.takeWhile Char.isDigit, r.dropWhile Char.isDigit)
    | r => ([], r)
  let (expOk, expVal, r3) : Bool × Int × List Char :=
    match r2 with
    | 'e' :: r | 'E' :: r =>
      let (esign, er) : Int × List Char :=
        match r with
        | '-' :: t => (-1, t)
        | '+' :: t => (1, t)
        | t => (1, t)
      let ed := er.takeWhile Char.isDigit
      (!ed.isEmpty, esign * (natOfDigits ed : Int), er.dropWhile Char.isDigit)
    | r => (true, 0, r)
  if ip.isEmpty && fp.isEmpty then
    Except.error (.valueError ("could not convert string to float: " ++ s))
  else if !expOk || !r3.isEmpty then
    Except.error (.valueError ("could not convert string to float: " ++ s))
  else
    let baseNum : Int := sign * ((natOfDigits ip : Int) * tenPowLen fp + (natOfDigits fp : Int))
    let baseDen : Int := tenPowLen fp
    if 0 ≤ expVal then
      Except.ok ⟨baseNum * 10 ^ expVal.toNat, baseDen⟩
    else
      Except.ok ⟨baseNum, baseDen * 10 ^ (-expVal).toNat⟩

/-- Split an optional leading sign off a numeral. -/
def pySign (cs : List Char) : Int × List Char :=
  match cs with
  | '-' :: r => (-1, r)
  | '+' :: r => (1, r)
  | r => (1, r)

/-- Drop an optional hexadecimal 0x marker. -/
def dropHexMarker (cs : List Char) : List Char :=
  match cs with
  | '0' :: 'x' :: r => r
  | '0' :: 'X' :: r => r
  | r => r

/-- Model of CPython int(s) (base 10): optional whitespace, optional sign,
one or more decimal digits. -/
def pyInt (s : String) : Except PyErr Int :=
  let p := pySign (stripList s.toList)
  if !p.2.isEmpty && p.2.all Char.isDigit then
    Except.ok (p.1 * (natOfDigits p.2 : Int))
  else
    Except.error (.valueError ("invalid literal for int() with base 10: " ++ s))

/-- Model of CPython int(s, 16): optional whitespace, optional sign, an
optional 0x marker, one or more hexadecimal digits. -/
def pyIntHex (s : String) : Except PyErr Int :=
  let p := pySign (stripList s.toList)
  let cs2 := dropHexMarker p.2
  if !cs2.isEmpty && cs2.all isHexDig then
    Except.ok (p.1 * (natOfHexDigits cs2 : Int))
  else
    Except.error (.valueError ("invalid literal for int() with base 16: " ++ s))

/-- Round-half-to-even of a fraction to an integer, as CPython round() does
(exactly on the decimal fractions exercised by the claims). -/
def roundHalfEvenF (f : Frac) : Int :=
  let n := f.floorI
  let r := f.num - n * f.den
  if 2 * r < f.den then n
  else if f.den < 2 * r then n + 1
  else if n % 2 = 0 then n else n + 1

/-- Model of CPython round(x, 2). -/
def pyRound2 (f : Frac) : Frac := ⟨roundHalfEvenF (f.mulInt 100), 100⟩

/-- Model of Python s.split(" ")[0]: the text before the first space. -/
def firstToken (s : String) : String := String.mk (s.toList.takeWhile (fun c => c != ' '))

/-- parser.parse_speed: parses a transfer speed as megabits per second.
Returns None on falsy input, converts by the case-insensitive unit suffix,
and falls back to 0 on an unrecognized suffix.  The float() call on the
first whitespace-separated token can raise ValueError. -/
def parse_speed (input_string : String) : Except PyErr (Option Frac) :=
  if pyTruthyStr input_string = false then Except.ok none
  else if lowerEndsWith input_string " kbps" then
    (pyFloat (firstToken input_string)).map (fun x => some (pyRound2 (x.divInt 1024)))
  else if lowerEndsWith input_string " mbps" then
    (pyFloat (firstToken input_string)).map (fun x => some x)
  else if lowerEndsWith input_string " gbps" then
    (pyFloat (firstToken input_string)).map (fun x => some (x.mulInt 1024))
  else if lowerEndsWith input_string " bps" then
    (pyFloat (firstToken input_string)).map (fun x => some (pyRound2 ((x.divInt 1024).divInt 1024)))
  else Except.ok (some ⟨0, 1⟩)

/-- parser.as_int: parses a string as an integer, returning None for falsy
input and on ValueError (the try/except in the source). -/
def as_int (string : Option String) : Except PyErr (Option Int) :=
  match string with
  | none => Except.ok none
  | some s =>
    if pyTruthyStr s = false then Except.ok none
    else
      match pyInt s with
      | Except.ok n => Except.ok (some n)
      | Except.error (.valueError _) => Except.ok none
      | Except.error e => Except.error e

/-- parser.hex_as_int: parses a hexadecimal string as an integer, returning
None for falsy input and on ValueError. -/
def hex_as_int (string : Option String) : Except PyErr (Option Int) :=
  match string with
  | none => Except.ok none
  | some s =>
    if pyTruthyStr s = false then Except.ok none
    else
      match pyIntHex s with
      | Except.ok n => Except.ok (some n)
      | Except.error (.valueError _) => Except.ok none
      | Except.error e => Except.error e

/-- The units recognized by parse_data_size, in the order the regex
alternation (KB|MB|GB|TB|B) tries them. -/
def dataSizeUnits : List String := ["KB", "MB", "GB", "TB", "B"]

/-- Match one of the size units case-insensitively at the head of the
character list, returning the canonical upper-case unit. -/
def matchUnit (cs : List Char) : Option String :=
  dataSizeUnits.find? (fun u => (cs.take u.toList.length).map Char.toUpper == u.toList)

/-- parser.parse_data_size: parses a size such as 219.49 GB into megabytes.
Anchored regex ([0-9.]+)\s*(KB|MB|GB|TB|B), case-insensitive, on the
stripped input; None when the regex does not match; float() on the numeric
group can raise ValueError when the group is made only of dots. -/
def parse_data_size (size_str : String) : Except PyErr (Option Frac) :=
  if pyTruthyStr size_str = false then Except.ok none
  else
    let cs := stripList size_str.toList
    let numTok := cs.takeWhile (fun c => c.isDigit || c == '.')
    let rest := (cs.dropWhile (fun c => c.isDigit || c == '.')).dropWhile isPySpace
    if numTok.isEmpty then Except.ok none
    else
      match matchUnit rest with
      | none => Except.ok none
      | some unit =>
        (pyFloat (String.mk numTok)).map (fun value =>
          if unit == "B" then some ((value.divInt 1024).divInt 1024)
          else if unit == "KB" then some (value.divInt 1024)
          else if unit == "MB" then some value
          else if unit == "GB" then some (value.mulInt 1024)
          else if unit == "TB" then some ((value.mulInt 1024).mulInt 1024)
          else some value)

/-- Greedy run of decimal digits at the head of a character list. -/
def takeDigits (cs : List Char) : List Char × List Char :=
  (cs.takeWhile Char.isDigit, cs.dropWhile Char.isDigit)

/-- Skip whitespace, the regex star over the whitespace class. -/
def skipSpace (cs : List Char) : List Char := cs.dropWhile isPySpace

/-- Case-insensitive literal match at the head of a character list,
returning the remainder on success. -/
def matchLitCI : List Char → List Char → Option (List Char)
  | [], cs => some cs
  | _, [] => none
  | p :: ps, c :: cs => if p.toLower == c.toLower then matchLitCI ps cs else none

/-- Attempt the tail of get_band pattern 1 at one position: the literal BAND
then optional whitespace, digits, a slash, digits, and the literal MHz,
case-insensitively.  Returns the band digit group. -/
def bandP1At (cs : List Char) : Option String := do
  let r1 ← matchLitCI "BAND".toList cs
  let (band, r2) := takeDigits (skipSpace r1)
  if band.isEmpty then none
  else
    match skipSpace r2 with
    | '/' :: r4 =>
      let (bw, r5) := takeDigits (skipSpace r4)
      if bw.isEmpty then none
      else
        let _ ← matchLitCI "MHz".toList (skipSpace r5)
        some (String.mk band)
    | _ => none

/-- All suffixes of a list, longest first. -/
def suffixesFrom : List Char → List (List Char)
  | [] => [[]]
  | c :: cs => (c :: cs) :: suffixesFrom cs

/-- get_band pattern 1: the anchored, case-insensitive regex
dot-star BAND ws digits ws slash ws digits ws MHz dot-star (re.match).
The leading greedy dot-star cannot cross a newline, so the BAND literal must
start in the first line; greediness selects the last such occurrence for
the capture. -/
def bandP1 (s : String) : Option String :=
  let firstLine := s.toList.takeWhile (fun c => c != '\n')
  let starts := (suffixesFrom s.toList).take (firstLine.length + 1)
  (starts.filterMap bandP1At).getLast?

/-- get_band pattern 2: a single B or n (either case) followed only by
digits, on the stripped input. -/
def bandP2 (s : String) : Option String :=
  match stripList s.toList with
  | c :: rest =>
    if (c == 'B' || c == 'b' || c == 'N' || c == 'n')
        && !rest.isEmpty && rest.all Char.isDigit then
      some (String.mk rest)
    else none
  | [] => none

/-- get_band pattern 3: search for an optional LTE, NR or 5G marker, then
the literal Band, optional whitespace and at least one digit,
case-insensitively; the first matching position wins. -/
def bandP3 (s : String) : Option String :=
  ((suffixesFrom s.toList).filterMap (fun cs => do
    let r1 ← matchLitCI "Band".toList cs
    let (d, _) := takeDigits (skipSpace r1)
    if d.isEmpty then none else some (String.mk d))).head?

/-- parser.get_band: canonicalizes a raw band descriptor to B followed by
the band number by trying four patterns in order; None on falsy input or
when nothing matches. -/
def get_band (raw_band_info : Option String) : Option String :=
  match raw_band_info with
  | none => none
  | some s =>
    if pyTruthyStr s = false then none
    else
      match bandP1 s with
      | some b => some ("B" ++ b)
      | none =>
        match bandP2 s with
        | some b => some ("B" ++ b)
        | none =>
          match bandP3 s with
          | some b => some ("B" ++ b)
          | none =>
            let t := stripList s.toList
            if !t.isEmpty && t.all Char.isDigit then
              some ("B" ++ String.mk t)
            else none

/-! ### Durations (parser.get_seconds_duration)

The source accumulates a dateutil relativedelta and converts it to absolute
seconds with datetime.now() - (datetime.now() - duration).  The embedding
takes the current datetime as an explicit parameter.  Combining a
relativedelta field that is None (as_int returning None on garbage) raises
TypeError in dateutil; the embedding models that raise point, and it also
models the CPython range checks of the datetime arithmetic (year 1-9999 in
replace, timedelta day magnitude, result ordinal range), so a parseable
but huge offset raises ValueError or OverflowError as in the source. -/

/-- A Gregorian calendar datetime (microseconds ignored; no claim needs
them).  Field ranges are not enforced by the type; validity is the
`ValidDate` predicate below. -/
structure PyDateTime where
  year : Int
  month : Int
  day : Int
  hour : Int
  minute : Int
  second : Int
deriving Repr, DecidableEq

/-- The datetime invariant guaranteed by datetime.now(). -/
def isLeapYear (y : Int) : Bool := (y % 4 == 0 && y % 100 != 0) || y % 400 == 0

/-- Length of a month in the proleptic Gregorian calendar. -/
def monthLen (y m : Int) : Int :=
  if m == 2 then (if isLeapYear y then 29 else 28)
  else if m == 4 || m == 6 || m == 9 || m == 11 then 30
  else 31

/-- Validity of a datetime value, as produced by datetime.now(): field
ranges of a CPython datetime, including the year range 1-9999 enforced by
the datetime constructor. -/
def ValidDate (d : PyDateTime) : Prop :=
  1 ≤ d.year ∧ d.year ≤ 9999
  ∧ 1 ≤ d.month ∧ d.month ≤ 12 ∧ 1 ≤ d.day ∧ d.day ≤ monthLen d.year d.month
  ∧ 0 ≤ d.hour ∧ d.hour ≤ 23 ∧ 0 ≤ d.minute ∧ d.minute ≤ 59
  ∧ 0 ≤ d.second ∧ d.second ≤ 59

instance (d : PyDateTime) : Decidable (ValidDate d) := by
  unfold ValidDate; infer_instance

/-- Day number of a proleptic Gregorian date (days_from_civil). -/
def daysFromCivil (y m d : Int) : Int :=
  let y1 := if m ≤ 2 then y - 1 else y
  let era := y1 / 400
  let yoe := y1 - era * 400
  let doy := (153 * (m + (if 2 < m then -3 else 9)) + 2) / 5 + d - 1
  let doe := yoe * 365 + yoe / 4 - yoe / 100 + doy
  era * 146097 + doe - 719468

/-- Absolute second count of a datetime. -/
def secondsOfDate (d : PyDateTime) : Int :=
  daysFromCivil d.year d.month d.day * 86400 + d.hour * 3600 + d.minute * 60 + d.second

/-- A dateutil relativedelta restricted to the fields the source uses
(weeks are folded into days as dateutil itself does). -/
structure RelDelta where
  years : Int
  months : Int
  days : Int
  hours : Int
  minutes : Int
  seconds : Int
deriving Repr, DecidableEq

/-- The zero relativedelta. -/
def RelDelta.zero : RelDelta := ⟨0, 0, 0, 0, 0, 0⟩

/-- Field-wise sum, as relativedelta addition computes on these fields. -/
def RelDelta.add (a b : RelDelta) : RelDelta :=
  ⟨a.years + b.years, a.months + b.months, a.days + b.days,
   a.hours + b.hours, a.minutes + b.minutes, a.seconds + b.seconds⟩

/-- relativedelta(hours=h, minutes=m, seconds=s) where each argument is the
result of as_int and may be None; a None argument raises TypeError when the
delta is built or combined. -/
def mkRelDeltaHMS (h m s : Option Int) : Except PyErr RelDelta :=
  match h, m, s with
  | some hv, some mv, some sv => Except.ok ⟨0, 0, 0, hv, mv, sv⟩
  | _, _, _ =>
    Except.error (.typeError "unsupported operand type for relativedelta field: NoneType")

/-- relativedelta with a single calendar field (years, months, weeks or
days, selected by idx 0-3); a None argument raises TypeError. -/
def mkRelDeltaCal (idx : Nat) (v : Option Int) : Except PyErr RelDelta :=
  match v with
  | some n =>
    match idx with
    | 0 => Except.ok ⟨n, 0, 0, 0, 0, 0⟩
    | 1 => Except.ok ⟨0, n, 0, 0, 0, 0⟩
    | 2 => Except.ok ⟨0, 0, n * 7, 0, 0, 0⟩
    | _ => Except.ok ⟨0, 0, n, 0, 0, 0⟩
  | none =>
    Except.error (.typeError "unsupported operand type for relativedelta field: NoneType")

/-- datetime - relativedelta, dateutil semantics with CPython range
checks: shift years and months with month normalization and clamp the day
to the target month length - datetime.replace raises ValueError when the
shifted year leaves 1-9999; then subtract the day/time fields as a plain
timedelta - its construction raises OverflowError when the normalized day
count exceeds magnitude 999999999, and the addition raises OverflowError
when the result leaves the supported datetime range (ordinals of
0001-01-01 through 9999-12-31, which are -719162 and 2932896 days from the
1970-01-01 epoch of daysFromCivil).  Returns the absolute second count of
the result. -/
def dateSubSeconds (now : PyDateTime) (delta : RelDelta) : Except PyErr Int :=
  let total := now.year * 12 + (now.month - 1) - (delta.years * 12 + delta.months)
  let y := total / 12
  let m := total % 12 + 1
  if y < 1 || 9999 < y then
    Except.error (.valueError ("year " ++ toString y ++ " is out of range"))
  else
    let d := min now.day (monthLen y m)
    let tdSeconds := delta.days * 86400 + delta.hours * 3600
      + delta.minutes * 60 + delta.seconds
    let tdDays := (-tdSeconds) / 86400
    if tdDays < -999999999 || 999999999 < tdDays then
      Except.error (.overflowError
        ("days=" ++ toString tdDays ++ "; must have magnitude <= 999999999"))
    else
      let res := secondsOfDate ⟨y, m, d, now.hour, now.minute, now.second⟩ - tdSeconds
      if res / 86400 < -719162 || 2932896 < res / 86400 then
        Except.error (.overflowError "date value out of range")
      else
        Except.ok res

/-- Number of colon characters in a string. -/
def countColon (s : String) : Nat := s.toList.count ':'

/-- Python part.split(":") on a character list. -/
def splitColon (cs : List Char) : List String :=
  (cs.foldr (fun c acc =>
    match acc with
    | [] => [[c]]
    | h :: t => if c == ':' then [] :: h :: t else (c :: h) :: t) [[]]).map String.mk

/-- Python whitespace split (str.split() with no argument): runs of
whitespace separate tokens, empties dropped. -/
def splitWs (cs : List Char) : List String :=
  ((cs.foldr (fun c acc =>
      if isPySpace c then [] :: acc
      else
        match acc with
        | [] => [[c]]
        | h :: t => (c :: h) :: t) []).filter (fun g => !g.isEmpty)).map String.mk

/-- Python part.startswith(p). -/
def pyStartsWith (part p : String) : Bool := p.toList.isPrefixOf part.toList

/-- One iteration of the get_seconds_duration loop at index i. -/
def durationStep (parts : List String) (i : Nat) (part : String) : Except PyErr RelDelta := do
  if countColon part == 2 then
    match splitColon part.toList with
    | [hs, ms, ss] => do
      let hv ← as_int (some hs)
      let mv ← as_int (some ms)
      let sv ← as_int (some ss)
      mkRelDeltaHMS hv mv sv
    | _ => pure RelDelta.zero
  else if i == 0 then
    pure RelDelta.zero
  else if pyStartsWith part "year" then
    mkRelDeltaCal 0 (← as_int (some ((parts.drop (i - 1)).headD "")))
  else if pyStartsWith part "month" then
    mkRelDeltaCal 1 (← as_int (some ((parts.drop (i - 1)).headD "")))
  else if pyStartsWith part "week" then
    mkRelDeltaCal 2 (← as_int (some ((parts.drop (i - 1)).headD "")))
  else if pyStartsWith part "day" then
    mkRelDeltaCal 3 (← as_int (some ((parts.drop (i - 1)).headD "")))
  else
    pure RelDelta.zero

/-- Accumulate the duration over the enumerated token list. -/
def durationFold (parts : List String) : Except PyErr RelDelta :=
  (parts.enum.foldlM (fun acc ip => do
    let d ← durationStep parts ip.1 ip.2
    pure (RelDelta.add acc d)) RelDelta.zero)

/-- parser.get_seconds_duration: parses a textual duration and converts it
to absolute seconds against the current datetime, with calendar-aware
month and year lengths.  None on falsy input. -/
def get_seconds_duration (now : PyDateTime) (raw_duration : String) :
    Except PyErr (Option Int) :=
  if pyTruthyStr raw_duration = false then Except.ok none
  else do
    let duration ← durationFold (splitWs (lowerList raw_duration.toList))
    let sub ← dateSubSeconds now duration
    pure (some (secondsOfDate now - sub))

/-! ### Feature matrix (features.py) and the get_data module gates -/

/-- features.features_not_implemented: per-model lists of unsupported
module|entity paths. -/
def features_not_implemented : List (String × List String) :=
  [("default",
    ["wan|protocol", "wan|connected_time", "wan|mac_address", "wan|public_ip",
     "wan|wan_ip", "wan|subnet_mask", "wan|gateway", "wan|dns",
     "wan|session_upload", "wan|session_download"]),
   ("WR3000S V1.0",
    ["modem|signal", "modem|network", "modem|sim", "modem|connected_time",
     "modem|cell", "modem|rsrp", "modem|rsrq", "modem|sinr", "modem|rssi",
     "modem|band", "modem|public_ip", "modem|wan_ip", "modem|imei",
     "modem|imsi", "modem|iccid", "modem|mode", "modem|bandwidth",
     "modem|session_upload", "modem|session_download",
     "data_usage|current_traffic", "data_usage|monthly_traffic",
     "data_usage|total_traffic",
     "sms|inbox_count", "sms|outbox_count", "sms|unread_count"])]

/-- features.existing_feature, as defined (three required positional
parameters): falls back to the default row for unknown models and tests
membership of key_entity|model_entity. -/
def existing_feature (device_model key_entity model_entity : String) : Bool :=
  let dm := if (features_not_implemented.lookup device_model).isSome
            then device_model else "default"
  match features_not_implemented.lookup dm with
  | some l => !(l.contains (key_entity ++ "|" ++ model_entity))
  | none => true

/-- The Python call protocol for existing_feature: the def has three
required positional parameters, so any call with a different number of
positional arguments raises TypeError before the body runs. -/
def existing_featureCall (args : List String) : Except PyErr Bool :=
  match args with
  | [a, b, c] => Except.ok (existing_feature a b c)
  | [_, _] =>
    Except.error (.typeError
      "existing_feature() missing 1 required positional argument: model_entity")
  | _ =>
    Except.error (.typeError "existing_feature() called with wrong number of arguments")

/-- The modules CudyRouter.get_data gates on, in source order; every gate
is the two-argument call existing_feature(device_model, MODULE). -/
def getDataModuleOrder : List String :=
  ["modem", "devices", "system", "data_usage", "sms", "wifi_2g", "wifi_5g",
   "lan", "vpn", "wan", "dhcp", "mesh"]

/-- The module-gating skeleton of CudyRouter.get_data: evaluate each
feature gate in order and collect the modules that would be fetched and
parsed.  The first gate raises, so no fetch is ever reached; the embedding
therefore captures get_data up to its first observable effect. -/
def get_data_gates (device_model : String) : Except PyErr (List String) :=
  getDataModuleOrder.foldlM (fun acc m => do
    let b ← existing_featureCall [device_model, m]
    pure (if b then acc ++ [m] else acc)) []

/-! ### Signal strength (parser.get_signal_strength) -/

/-- The value of the signal sensor: a bucket number or the Home Assistant
STATE_UNAVAILABLE sentinel string. -/
inductive SignalValue where
  | num (n : Int)
  | unavailable
deriving Repr, DecidableEq

/-- Python truthiness of an optional integer: None and 0 are falsy. -/
def pyTruthyOptInt (v : Option Int) : Bool :=
  match v with
  | none => false
  | some n => n != 0

/-- parser.get_signal_strength: buckets the RSSI value, with the outer
`if rssi:` truthiness test of the source. -/
def get_signal_strength (rssi : Option Int) : SignalValue :=
  if pyTruthyOptInt rssi then
    match rssi with
    | some n =>
      if 20 < n then .num 4
      else if 15 < n then .num 3
      else if 10 < n then .num 2
      else if 5 < n then .num 1
      else .num 0
    | none => .unavailable
  else .unavailable

/-- The bucket map exactly as the claim words it: rssi>20 gives 4, rssi>15
gives 3, rssi>10 gives 2, rssi>5 gives 1, otherwise 0. -/
def signalBucketSpec (n : Int) : Int :=
  if 20 < n then 4 else if 15 < n then 3 else if 10 < n then 2
  else if 5 < n then 1 else 0

/-- The amended signal map: a present-and-nonzero RSSI is bucketed, while
both an absent RSSI and a known RSSI of zero yield the sentinel. -/
def signalSpecAmended (rssi : Option Int) : SignalValue :=
  match rssi with
  | none => .unavailable
  | some n => if n = 0 then .unavailable else .num (signalBucketSpec n)

example : parse_speed "512 Kbps" = Except.ok (some ⟨50, 100⟩) := by decide
example : parse_data_size "1 GB" = Except.ok (some ⟨1024, 1⟩) := by decide
example : parse_data_size "219.49 GB" = Except.ok (some ⟨22475776, 100⟩) := by decide
example : parse_speed "x kbps"
    = Except.error (.valueError "could not convert string to float: x") := by decide
example : get_band (some "garbage") = none := by decide
example : get_band (some "BAND 3 / 20 MHz") = some "B3" := by decide
example : get_band (some "n78") = some "B78" := by decide
example : get_band (some "-") = none := by decide
example : as_int (some "-") = Except.ok none := by decide
example : hex_as_int (some "1A") = Except.ok (some 26) := by decide
example : parse_data_size ". B"
    = Except.error (.valueError "could not convert string to float: .") := by decide

/-! ### Python dictionaries as ordered association lists

Python dicts preserve insertion order; assignment replaces the value of an
existing key in place and appends a new key at the end. -/

/-- Dictionary assignment d[k] = v. -/
def dictSet {α : Type} (d : List (String × α)) (k : String) (v : α) :
    List (String × α) :=
  match d with
  | [] => [(k, v)]
  | (k1, v1) :: t => if k1 == k then (k1, v) :: t else (k1, v1) :: dictSet t k v

/-- Dictionary lookup d.get(k). -/
def dictGet {α : Type} (d : List (String × α)) (k : String) : Option α :=
  d.lookup k

/-- Dictionary d.pop(k). -/
def dictPop {α : Type} (d : List (String × α)) (k : String) : List (String × α) :=
  d.filter (fun p => p.1 != k)

/-- Dictionary d.update(src): assign every binding of src into d in order. -/
def dictUpdate {α : Type} (d src : List (String × α)) : List (String × α) :=
  src.foldl (fun acc kv => dictSet acc kv.1 kv.2) d

/-! ### parser.add_unique and the row-recording step of parser.parse_tables

The HTML-to-rows extraction itself is BeautifulSoup DOM traversal (an
external library); the repository logic under verification starts from the
extracted row_data lists, which is where this embedding picks up
(parser.py lines 68-71), together with add_unique (lines 17-25). -/

/-- Truthiness of d.get(k): false when the key is absent (None) and when
the stored string is empty. -/
def truthyAt (d : List (String × String)) (k : String) : Bool :=
  match dictGet d k with
  | Option.none => false
  | Option.some v => v != ""

/-- The i-th candidate key of the add_unique loop: the bare label first,
then label2, label3, and so on. -/
def uniqueCandidate (key : String) (i : Nat) : String :=
  if i ≤ 1 then key else key ++ toString i

/-- The while loop of add_unique: advance i while the candidate key holds a
truthy value.  The fuel bounds the search; data.length + 1 candidates always
include a free one (at most data.length keys can be truthy), so the
fuel-exhausted branch is unreachable for the fuel add_unique supplies. -/
def addUniqueLoop (data : List (String × String)) (key : String) :
    Nat → Nat → String
  | 0, i => uniqueCandidate key i
  | fuel + 1, i =>
    if truthyAt data (uniqueCandidate key i) then addUniqueLoop data key fuel (i + 1)
    else uniqueCandidate key i

/-- parser.add_unique: store value under the first candidate key whose
current entry is falsy. -/
def add_unique (data : List (String × String)) (key value : String) :
    List (String × String) :=
  dictSet data (addUniqueLoop data key (data.length + 1) 1) value

/-- The re.sub removing newline characters applied to recorded values. -/
def removeNewlines (s : String) : String :=
  String.mk (s.toList.filter (fun c => c != '\n'))

/-- The per-row recording step of parse_tables: a row with at least two
cells records label and value; a row with exactly one cell records the
label with an empty value. -/
def recordRow (data : List (String × String)) (row_data : List String) :
    List (String × String) :=
  match row_data with
  | [] => data
  | [l] => add_unique data l ""
  | l :: v :: _ => add_unique data l (removeNewlines v)

/-- The recording loop of parse_tables over all extracted rows. -/
def parseTableRows (rows : List (List String)) : List (String × String) :=
  rows.foldl recordRow []

example : parseTableRows [["SCC", "a"], ["SCC", "b"], ["SCC", "c"]]
    = [("SCC", "a"), ("SCC2", "b"), ("SCC3", "c")] := by decide
example : parseTableRows [["SCC"], ["SCC", "X"]] = [("SCC", "X")] := by decide

/-! ### Mesh reconciliation (CudyRouter.get_data, mesh section)

Dynamic Python values restricted to the shapes the mesh code produces. -/

/-- A dynamic Python value as stored in the mesh device dictionaries. -/
inductive PyVal where
  | none
  | str (s : String)
  | int (n : Int)
deriving Repr, DecidableEq

/-- Python truthiness of a dynamic value. -/
def PyVal.truthy : PyVal → Bool
  | .none => false
  | .str s => s != ""
  | .int n => n != 0

/-- One JSON client record from the mesh clients endpoint, restricted to
the keys the source reads; a missing key is the falsy default the
corresponding .get call supplies. -/
structure SysReport where
  hardware : String
  board : PyVal
  model : PyVal
  firmware : PyVal
  ipaddr : PyVal
  ledstatus : PyVal
deriving Repr, DecidableEq

/-- A record of the clients JSON array (client_json in the source). -/
structure MeshClientJson where
  id : String
  name : PyVal
  state : PyVal
  sysreport : SysReport
deriving Repr, DecidableEq

/-- Format a 12-hex-digit client id as a colon-separated upper-case MAC:
the join of two-character slices, upper-cased. -/
def formatMac (client_id : String) : String :=
  let cs := client_id.toList
  let pieces := [cs.take 2, (cs.drop 2).take 2, (cs.drop 4).take 2,
                 (cs.drop 6).take 2, (cs.drop 8).take 2, (cs.drop 10).take 2]
  String.mk ((List.intercalate [':'] pieces).map Char.toUpper)

/-- The json_client_data record built for one client (router.py lines
832-848), including the two-branch status expression exactly as written in
the source: both branches produce online. -/
def mkJsonClientInfo (c : MeshClientJson) : List (String × PyVal) :=
  let formatted_mac := formatMac c.id
  let hardware := c.sysreport.hardware
  let model_name : PyVal :=
    if pyTruthyStr hardware then .str (firstToken hardware)
    else if c.sysreport.board.truthy then c.sysreport.board else c.sysreport.model
  [("name", c.name),
   ("model", model_name),
   ("firmware_version", c.sysreport.firmware),
   ("ip_address", c.sysreport.ipaddr),
   ("mac_address", .str formatted_mac),
   ("hardware", .str hardware),
   ("status", if c.state == .str "connected" then .str "online" else .str "online"),
   ("led_status", c.sysreport.ledstatus)]

/-- router_data.collect_router_data builds the same record but maps a
non-connected state to offline (router_data.py line 242). -/
def mkJsonClientInfoCollect (c : MeshClientJson) : List (String × PyVal) :=
  (mkJsonClientInfo c).map (fun kv =>
    if kv.1 == "status" then
      (kv.1, if c.state == .str "connected" then PyVal.str "online" else PyVal.str "offline")
    else kv)

/-- json_client_data: the map from formatted MAC to the JSON record, built
over the clients array, skipping records with a falsy id. -/
def buildJsonClientData (clients : List MeshClientJson) :
    List (String × List (String × PyVal)) :=
  clients.foldl (fun acc c =>
    if pyTruthyStr c.id then dictSet acc (formatMac c.id) (mkJsonClientInfo c)
    else acc) []

/-- The fixed-shape record parse_mesh_client_status returns (its eight keys
in construction order), with the values left open. -/
def mkHtmlClientInfo (model name ip mac fw backhaul : PyVal) (connected : Int)
    (status : PyVal) : List (String × PyVal) :=
  [("model", model), ("name", name), ("ip_address", ip), ("mac_address", mac),
   ("firmware_version", fw), ("backhaul", backhaul),
   ("connected_devices", .int connected), ("status", status)]

/-- One step of the HTML-into-JSON merge: connected_devices always takes
the HTML value; any other key only when it is absent, falsy or the literal
Unknown in the accumulated record. -/
def mergeStep (acc : List (String × PyVal)) (kv : String × PyVal) :
    List (String × PyVal) :=
  if kv.1 == "connected_devices" then dictSet acc kv.1 kv.2
  else
    match dictGet acc kv.1 with
    | Option.none => dictSet acc kv.1 kv.2
    | Option.some cur =>
      if !cur.truthy || cur == .str "Unknown" then dictSet acc kv.1 kv.2 else acc

/-- The html_info merge loop over the parsed HTML record. -/
def mergeHtmlInto (client_info html_info : List (String × PyVal)) :
    List (String × PyVal) :=
  html_info.foldl mergeStep client_info

/-- Python device.get(name, empty).lower(): default empty string when the
key is absent; AttributeError when the stored value is not a string. -/
def pyGetLowerStr (d : List (String × PyVal)) (k : String) : Except PyErr String :=
  match dictGet d k with
  | Option.none => Except.ok ""
  | Option.some (.str s) => Except.ok (String.mk (lowerList s.toList))
  | Option.some _ => Except.error (.attributeError "lower")

/-- Strip colons and upper-case, the mac.replace and .upper() chain used in
the device-matching test. -/
def normMacKey (s : String) : String :=
  String.mk ((s.toList.filter (fun c => c != ':')).map Char.toUpper)

/-- Upper-case a whole string at the character level. -/
def upperStr (s : String) : String := String.mk (s.toList.map Char.toUpper)

/-- The match found by the device loop: an existing entry matched by MAC,
an entry matched by display name under a placeholder key, or nothing. -/
inductive MeshMatch where
  | byMac (mac : String)
  | byName (mac : String)
  | notFound
deriving Repr, DecidableEq

/-- The matching loop over mesh_data mesh_devices: first entry matching by
normalized MAC wins; otherwise a name match on an entry whose key starts
with the placeholder marker; the name comparison can raise when a stored
name is not a string. -/
def findMatch (client_mac : String) (client_info : List (String × PyVal)) :
    List (String × List (String × PyVal)) → Except PyErr MeshMatch
  | [] => Except.ok .notFound
  | (mac, device) :: rest =>
    if normMacKey mac == upperStr client_mac then Except.ok (.byMac mac)
    else do
      let dn ← pyGetLowerStr device "name"
      let cn ← pyGetLowerStr client_info "name"
      if dn == cn && pyStartsWith mac "mesh_" then Except.ok (.byName mac)
      else findMatch client_mac client_info rest

/-- Replace the value stored under an existing key (the in-place
device.update of the matched entry). -/
def updateEntry (d : List (String × List (String × PyVal))) (k : String)
    (ci : List (String × PyVal)) : List (String × List (String × PyVal)) :=
  d.map (fun kv => if kv.1 == k then (kv.1, dictUpdate kv.2 ci) else kv)

/-- The mesh state threaded through the client loop: the device map and the
main-router LED status side channel. -/
structure MeshState where
  mesh_devices : List (String × List (String × PyVal))
  main_router_led_status : Option PyVal
deriving Repr, DecidableEq

/-- The client_info value built by the per-client loop: start from the
JSON record for the formatted MAC, merge the parsed detail page into it,
default a missing name, and force the formatted MAC address. -/
def clientInfo3 (jsonData : List (String × List (String × PyVal)))
    (client_mac : String) (devstatus_present : Bool)
    (html_info : Option (List (String × PyVal))) : List (String × PyVal) :=
  let formatted := formatMac client_mac
  let ci0 := (dictGet jsonData formatted).getD []
  let ci1 :=
    if devstatus_present then
      match html_info with
      | Option.some hi => mergeHtmlInto ci0 hi
      | Option.none => ci0
    else ci0
  let ci2 :=
    if !((dictGet ci1 "name").getD .none).truthy then
      dictSet ci1 "name"
        (.str ("Mesh Device "
          ++ String.mk (client_mac.toList.drop (client_mac.toList.length - 6))))
    else ci1
  dictSet ci2 "mac_address" (.str formatted)

/-- The body of the per-client loop of the mesh section of
CudyRouter.get_data (router.py lines 855-952) for one client MAC:
skip the all-zero main-router id (recording its LED status), otherwise
build client_info and reconcile it into the device map. -/
def processClient (st : MeshState)
    (jsonData : List (String × List (String × PyVal)))
    (client_mac : String) (devstatus_present : Bool)
    (html_info : Option (List (String × PyVal))) : Except PyErr MeshState :=
  if client_mac == "000000000000" then
    let formatted := formatMac client_mac
    match dictGet jsonData formatted with
    | Option.some mrd =>
      Except.ok { st with
        main_router_led_status := Option.some ((dictGet mrd "led_status").getD .none) }
    | Option.none => Except.ok st
  else
    let formatted := formatMac client_mac
    let ci3 := clientInfo3 jsonData client_mac devstatus_present html_info
    do
      match ← findMatch client_mac ci3 st.mesh_devices with
      | .byMac mac =>
        Except.ok { st with mesh_devices := updateEntry st.mesh_devices mac ci3 }
      | .byName mac =>
        Except.ok { st with
          mesh_devices := dictSet (dictPop st.mesh_devices mac) formatted ci3 }
      | .notFound =>
        Except.ok { st with mesh_devices := dictSet st.mesh_devices formatted ci3 }

/-! ### Authentication (CudyRouter.authenticate) and page fetch (CudyRouter.get)

The HTTP transport is the out-of-scope collaborator; it is modelled as
functions from attempt indices to responses.  A None response models a
requests exception, which the source catches. -/

/-- Exact literal match at the head of a character list, returning the
remainder on success. -/
def matchLit : List Char → List Char → Option (List Char)
  | [], cs => some cs
  | _, [] => none
  | p :: ps, c :: cs => if p == c then matchLit ps cs else none

/-- The tail of the extract-hidden regex after the name literal: a greedy
run of characters other than a closing angle bracket, the literal
value equals quote, and a quote-free capture closed by a quote.
Greediness tries the longest run first. -/
def extractHiddenAt (rest : List Char) : Option String :=
  let window := rest.takeWhile (fun c => c != '>')
  ((List.range (window.length + 1)).reverse.filterMap (fun k =>
    match matchLit "value=\x22".toList (rest.drop k) with
    | Option.none => Option.none
    | Option.some tail =>
      let cap := tail.takeWhile (fun c => c != '\x22')
      if cap.length < tail.length then Option.some (String.mk cap)
      else Option.none)).head?

/-- router._extract_hidden: the first position where the pattern
name equals quoted-name, any non-bracket run, value equals quoted-capture
matches; empty string when the page has no such field. -/
def extract_hidden (html fieldName : String) : String :=
  (((suffixesFrom html.toList).filterMap (fun cs =>
    match matchLit ("name=\x22" ++ fieldName ++ "\x22").toList cs with
    | Option.none => Option.none
    | Option.some rest => extractHiddenAt rest)).head?).getD ""

/-- A transport response for the legacy login POST. -/
structure HttpResp where
  status : Nat
  setCookieSysauth : Option String

/-- The transport behaviour an authenticate() call can observe. -/
structure AuthTransport where
  loginPage : Nat → Option String
  modernPostCookie : Nat → Option String
  legacyResp : Option HttpResp

/-- CudyRouter._authenticate_new on the n-th modern attempt: GET the login
page, extract the hidden token and salt, give up when either is missing,
else POST and succeed exactly when a sysauth cookie lands in the session
jar.  A transport exception yields False. -/
def authenticate_new (t : AuthTransport) (attempt : Nat) : Option String :=
  match t.loginPage attempt with
  | Option.none => Option.none
  | Option.some html =>
    let token := extract_hidden html "token"
    let salt := extract_hidden html "salt"
    if !(pyTruthyStr salt && pyTruthyStr token) then Option.none
    else t.modernPostCookie attempt

/-- CudyRouter._authenticate_legacy: POST the plaintext form; succeed when
the response is OK or a 302 redirect and carries a sysauth cookie. -/
def authenticate_legacy (t : AuthTransport) : Option String :=
  match t.legacyResp with
  | Option.none => Option.none
  | Option.some r =>
    if r.status < 400 || r.status == 302 then r.setCookieSysauth
    else Option.none

/-- The observable outcome of authenticate(). -/
structure AuthResult where
  success : Bool
  cookie : Option String
  modernAttempts : Nat
  legacyAttempted : Bool
deriving Repr, DecidableEq

/-- CudyRouter.authenticate: clear the session, try the modern flow, retry
the whole modern flow once after a short sleep, then fall back to the
legacy flow. -/
def authenticate (t : AuthTransport) : AuthResult :=
  match authenticate_new t 0 with
  | Option.some c => ⟨true, Option.some c, 1, false⟩
  | Option.none =>
    match authenticate_new t 1 with
    | Option.some c => ⟨true, Option.some c, 2, false⟩
    | Option.none =>
      match authenticate_legacy t with
      | Option.some c => ⟨true, Option.some c, 2, true⟩
      | Option.none => ⟨false, Option.none, 2, true⟩

/-- The transport behaviour a get() call can observe: the n-th page GET
(None models a raised-and-caught exception) and the result of the n-th
authenticate() call made during this get(). -/
structure GetTransport where
  resp : Nat → Option (Nat × String)
  auth : Nat → Bool

/-- The while loop of CudyRouter.get with its retry budget: a 403 response
triggers an authenticate() call and, when that succeeds, another loop
iteration; an OK response returns its text; other statuses abandon the
call; exceptions are swallowed and consume a retry.  Returns the result
text and the number of authenticate() calls performed. -/
def cudyGetGo (t : GetTransport) : Nat → Nat → Nat → String × Nat
  | 0, _, ac => ("", ac)
  | retries + 1, attempt, ac =>
    match t.resp attempt with
    | Option.none => cudyGetGo t retries (attempt + 1) ac
    | Option.some (status, text) =>
      if status == 403 then
        if t.auth ac then cudyGetGo t retries (attempt + 1) (ac + 1)
        else ("", ac + 1)
      else if status < 400 then (text, ac)
      else ("", ac)

/-- CudyRouter.get: the loop with retries = 2. -/
def cudyGet (t : GetTransport) : String × Nat := cudyGetGo t 2 0 0

example :
    cudyGet ⟨fun _ => some (403, "forbidden"), fun _ => true⟩ = ("", 2) := rfl
example :
    cudyGet ⟨fun n => if n == 0 then some (403, "x") else some (200, "retried"),
      fun _ => true⟩ = ("retried", 1) := rfl
example :
    authenticate ⟨fun _ => some "<html>no fields</html>", fun _ => none,
      some ⟨302, some "abc"⟩⟩ = ⟨true, some "abc", 2, true⟩ := rfl

/-! ### Claim theorems -/

/-- C1: the claim says get_data never raises for any options/model.  In the
source, every module gate is the two-positional-argument call
existing_feature(device_model, MODULE), but features.existing_feature
declares three required positional parameters, so the very first gate
raises TypeError for every options dict and every device-model string and
get_data never returns a snapshot.  This theorem evaluates the embedded
gate skeleton of get_data: it errors for every model. -/
theorem get_data_always_raises_type_error :
    ∀ device_model : String,
      get_data_gates device_model = Except.error (.typeError
        "existing_feature() missing 1 required positional argument: model_entity") :=
  fun _ => rfl

/-- C3: the claim describes module gating (a module is present iff the
matrix marks it supported; unknown models fall back to the default row).
The three-argument existing_feature does implement the membership test and
the default fallback, but get_data and the repository tests invoke it with
two arguments, which raises TypeError instead of returning the expected
booleans (tests/unit/test_pr2_regressions.py line 28 expects False from
existing_feature with arguments WR3000S V1.0 and modem). -/
theorem existing_feature_gate_type_error :
    existing_featureCall ["WR3000S V1.0", "modem"]
      = Except.error (.typeError
        "existing_feature() missing 1 required positional argument: model_entity")
    ∧ existing_featureCall ["UNKNOWN MODEL", "wan"]
      = Except.error (.typeError
        "existing_feature() missing 1 required positional argument: model_entity")
    ∧ get_data_gates "WR3000S V1.0" = Except.error (.typeError
        "existing_feature() missing 1 required positional argument: model_entity")
    ∧ existing_feature "UNKNOWN MODEL" "wan" "protocol" = false
    ∧ existing_feature "WR3000S V1.0" "modem" "signal" = false
    ∧ existing_feature "WR3000S V1.0" "devices" "status" = true := by
  refine ⟨rfl, rfl, rfl, ?_, ?_, ?_⟩ <;> decide

/-- C9 counterexample: the claim says a known RSSI of zero is reported as
bucket 0, distinguished from the absent case; the source tests `if rssi:`,
under which 0 is falsy, so a known zero yields the unavailable sentinel. -/
theorem get_signal_strength_zero_counterexample :
    get_signal_strength (some 0) = SignalValue.unavailable
    ∧ get_signal_strength (some 0) ≠ SignalValue.num 0 := by
  constructor <;> decide

/-- C9 amended: RSSI buckets by the claimed thresholds apply only to a
present and nonzero RSSI; both an absent RSSI and a known RSSI of zero
yield the unavailable sentinel. -/
theorem get_signal_strength_amended :
    ∀ rssi : Option Int, get_signal_strength rssi = signalSpecAmended rssi := by
  intro r
  cases r with
  | none => rfl
  | some n =>
    by_cases h : n = 0
    · subst h; rfl
    · simp only [get_signal_strength, signalSpecAmended, pyTruthyOptInt, signalBucketSpec,
        bne_iff_ne, ne_eq, h, not_false_eq_true, if_true, if_false, if_neg]
      split_ifs <;> rfl

/-- C10 counterexample: the claim says a mesh client whose JSON state is
not connected gets status offline; in CudyRouter.get_data both branches of
the status expression produce online, so a disconnected client is online. -/
theorem mesh_json_status_counterexample :
    dictGet (mkJsonClientInfo
      ⟨"aabbccddeeff", .str "Node", .str "disconnected",
        ⟨"", .none, .none, .none, .none, .none⟩⟩) "status"
      = some (.str "online")
    ∧ dictGet (mkJsonClientInfo
      ⟨"aabbccddeeff", .str "Node", .str "disconnected",
        ⟨"", .none, .none, .none, .none, .none⟩⟩) "status"
      ≠ some (.str "offline") := by
  constructor <;> decide

/-- C10 amended: in CudyRouter.get_data the status of every JSON-sourced
mesh client record is online regardless of its state; the two-valued
mapping the claim describes is implemented only by the parallel collector
router_data.collect_router_data. -/
theorem mesh_json_status_amended :
    ∀ c : MeshClientJson,
      dictGet (mkJsonClientInfo c) "status" = some (.str "online")
      ∧ dictGet (mkJsonClientInfoCollect c) "status"
        = some (.str (if c.state == .str "connected" then "online" else "offline")) := by
  intro c
  constructor
  · have hrfl : dictGet (mkJsonClientInfo c) "status"
        = some (if c.state == .str "connected" then PyVal.str "online"
                else PyVal.str "online") := rfl
    rw [hrfl, ite_self]
  · have hrfl : dictGet (mkJsonClientInfoCollect c) "status"
        = some (if c.state == .str "connected" then PyVal.str "online"
                else PyVal.str "offline") := rfl
    rw [hrfl]
    cases h : (c.state == PyVal.str "connected") <;> simp [h]

/-- C7 counterexample: the claim says parse_data_size of 219.49 GB equals
224822.56 megabytes; the source multiplies 219.49 by 1024, which is
224757.76, so the claimed constant is wrong (the other two conversions in
the claim are correct). -/
theorem parse_data_size_gb_counterexample :
    (parse_data_size "219.49 GB").map (Option.map Frac.toRat)
      ≠ Except.ok (some ((22482256 : ℚ) / 100)) := by
  rw [show parse_data_size "219.49 GB" = Except.ok (some ⟨22475776, 100⟩) from by decide]
  simp only [Except.map, Option.map, ne_eq, Except.ok.injEq, Option.some.injEq]
  unfold Frac.toRat
  norm_num

/-- C7 amended: parse_data_size maps 1 GB to 1024 megabytes and 219.49 GB
to 224757.76 megabytes, and parse_speed maps 512 Kbps to 0.5 Mbps. -/
theorem unit_conversions_amended :
    (parse_data_size "1 GB").map (Option.map Frac.toRat) = Except.ok (some 1024)
    ∧ (parse_data_size "219.49 GB").map (Option.map Frac.toRat)
      = Except.ok (some ((22475776 : ℚ) / 100))
    ∧ (parse_speed "512 Kbps").map (Option.map Frac.toRat)
      = Except.ok (some ((1 : ℚ) / 2)) := by
  refine ⟨?_, ?_, ?_⟩
  · rw [show parse_data_size "1 GB" = Except.ok (some ⟨1024, 1⟩) from by decide]
    simp only [Except.map, Option.map, Except.ok.injEq, Option.some.injEq]
    unfold Frac.toRat
    norm_num
  · rw [show parse_data_size "219.49 GB" = Except.ok (some ⟨22475776, 100⟩) from by decide]
    simp only [Except.map, Option.map, Except.ok.injEq, Option.some.injEq]
    unfold Frac.toRat
    norm_num
  · rw [show parse_speed "512 Kbps" = Except.ok (some ⟨50, 100⟩) from by decide]
    simp only [Except.map, Option.map, Except.ok.injEq, Option.some.injEq]
    unfold Frac.toRat
    norm_num

/-- C6 counterexample: the claim says a single get() call never performs
more than one re-authentication; on a transport answering 403 to both
attempts with authenticate() succeeding, the loop re-authenticates after
each 403, so one call performs two re-authentications before returning the
empty result. -/
theorem get_double_403_two_reauths :
    cudyGet ⟨fun _ => some (403, "forbidden"), fun _ => true⟩ = ("", 2)
    ∧ ¬ (cudyGet ⟨fun _ => some (403, "forbidden"), fun _ => true⟩).2 ≤ 1 := by
  constructor <;> decide

/-- C6 amended: each 403 response triggers exactly one re-authentication
attempt; the retry budget of two attempts bounds a single call to at most
two re-authentications, and a call that used both re-authentications is
abandoned with the empty result. -/
theorem get_reauth_bounded :
    ∀ t : GetTransport,
      (cudyGet t).2 ≤ 2 ∧ ((cudyGet t).2 = 2 → (cudyGet t).1 = "") := by
  intro t
  unfold cudyGet
  unfold cudyGetGo
  rcases h0 : t.resp 0 with _ | ⟨s0, x0⟩ <;> simp only []
  · unfold cudyGetGo
    rcases h1 : t.resp 1 with _ | ⟨s1, x1⟩ <;> simp only []
    · unfold cudyGetGo
      simp
    · split_ifs <;> simp_all [cudyGetGo]
  · split_ifs with hf ha <;> try simp_all
    · unfold cudyGetGo
      rcases h1 : t.resp 1 with _ | ⟨s1, x1⟩ <;> simp only []
      · unfold cudyGetGo
        simp
      · split_ifs <;> simp_all [cudyGetGo]

/-- C6 amended witness: the bound evaluated on the transport of the
repository regression test (one 403, then a 200). -/
theorem get_reauth_bounded_witness :
    (cudyGet ⟨fun n => if n == 0 then some (403, "x") else some (200, "retried"),
      fun _ => true⟩).2 ≤ 2
    ∧ ((cudyGet ⟨fun n => if n == 0 then some (403, "x") else some (200, "retried"),
      fun _ => true⟩).2 = 2 →
      (cudyGet ⟨fun n => if n == 0 then some (403, "x") else some (200, "retried"),
        fun _ => true⟩).1 = "") :=
  get_reauth_bounded _

/-- A transport on which the modern login page never yields a salt/token
pair: every successful GET of the login page produces HTML from which the
hidden salt and token fields cannot both be extracted. -/
def saltTokenMissing (t : AuthTransport) : Prop :=
  ∀ n html, t.loginPage n = some html →
    (pyTruthyStr (extract_hidden html "salt")
      && pyTruthyStr (extract_hidden html "token")) = false

/-- Under a salt/token-free transport every modern attempt fails. -/
theorem authenticate_new_none_of_missing (t : AuthTransport)
    (h : saltTokenMissing t) (n : Nat) : authenticate_new t n = none := by
  unfold authenticate_new
  cases hl : t.loginPage n with
  | none => rfl
  | some html => simp [h n html hl]

/-- C5: authenticate tries the modern flow first and, when the modern login
page never yields a salt/token pair, performs exactly two modern attempts
(the initial one and one retry after the wait), then attempts the legacy
flow, and succeeds exactly when the legacy flow yields a sysauth cookie
(response OK or 302 carrying the cookie). -/
theorem authenticate_modern_retry_then_legacy (t : AuthTransport)
    (h : saltTokenMissing t) :
    (authenticate t).modernAttempts = 2
    ∧ (authenticate t).legacyAttempted = true
    ∧ (authenticate t).success = (authenticate_legacy t).isSome := by
  unfold authenticate
  rw [authenticate_new_none_of_missing t h 0, authenticate_new_none_of_missing t h 1]
  cases hleg : authenticate_legacy t <;> simp [hleg]

/-- C5 witness: a concrete transport whose login page has no hidden fields
and whose legacy flow answers 302 with a sysauth cookie; authenticate
retries the modern flow once, attempts legacy and succeeds. -/
theorem authenticate_modern_retry_then_legacy_witness :
    (authenticate ⟨fun _ => some "<html><body>plain login</body></html>",
        fun _ => none, some ⟨302, some "cookie0"⟩⟩).modernAttempts = 2
    ∧ (authenticate ⟨fun _ => some "<html><body>plain login</body></html>",
        fun _ => none, some ⟨302, some "cookie0"⟩⟩).legacyAttempted = true
    ∧ (authenticate ⟨fun _ => some "<html><body>plain login</body></html>",
        fun _ => none, some ⟨302, some "cookie0"⟩⟩).success
      = (authenticate_legacy ⟨fun _ => some "<html><body>plain login</body></html>",
          fun _ => none, some ⟨302, some "cookie0"⟩⟩).isSome :=
  authenticate_modern_retry_then_legacy _ (by
    intro n html hl
    injection hl with hh
    subst hh
    decide)

/-- Whether a string carries one of the four recognized speed suffixes. -/
def hasSpeedSuffix (s : String) : Bool :=
  lowerEndsWith s " kbps" || lowerEndsWith s " mbps"
    || lowerEndsWith s " gbps" || lowerEndsWith s " bps"

/-- pyInt either succeeds or raises ValueError (never another class), which
is what the try/except ValueError of as_int relies on. -/
theorem pyInt_shape (s : String) :
    (∃ n, pyInt s = Except.ok n) ∨ ∃ m, pyInt s = Except.error (.valueError m) := by
  by_cases hc : (!(pySign (stripList s.toList)).2.isEmpty
      && (pySign (stripList s.toList)).2.all Char.isDigit) = true
  · exact Or.inl ⟨_, by unfold pyInt; dsimp only; rw [if_pos hc]⟩
  · exact Or.inr ⟨_, by unfold pyInt; dsimp only; rw [if_neg hc]⟩

/-- pyIntHex either succeeds or raises ValueError. -/
theorem pyIntHex_shape (s : String) :
    (∃ n, pyIntHex s = Except.ok n) ∨ ∃ m, pyIntHex s = Except.error (.valueError m) := by
  by_cases hc : (!(dropHexMarker (pySign (stripList s.toList)).2).isEmpty
      && (dropHexMarker (pySign (stripList s.toList)).2).all isHexDig) = true
  · exact Or.inl ⟨_, by unfold pyIntHex; dsimp only; rw [if_pos hc]⟩
  · exact Or.inr ⟨_, by unfold pyIntHex; dsimp only; rw [if_neg hc]⟩

/-- as_int never raises: the falsy guard and the ValueError handler cover
every case. -/
theorem as_int_total (s : Option String) : ∃ v, as_int s = Except.ok v := by
  cases s with
  | none => exact ⟨none, rfl⟩
  | some t =>
    simp only [as_int]
    by_cases h : pyTruthyStr t = false
    · rw [if_pos h]; exact ⟨none, rfl⟩
    · rw [if_neg h]
      rcases pyInt_shape t with ⟨n, hn⟩ | ⟨m, hm⟩
      · rw [hn]; exact ⟨some n, rfl⟩
      · rw [hm]; exact ⟨none, rfl⟩

/-- hex_as_int never raises. -/
theorem hex_as_int_total (s : Option String) : ∃ v, hex_as_int s = Except.ok v := by
  cases s with
  | none => exact ⟨none, rfl⟩
  | some t =>
    simp only [hex_as_int]
    by_cases h : pyTruthyStr t = false
    · rw [if_pos h]; exact ⟨none, rfl⟩
    · rw [if_neg h]
      rcases pyIntHex_shape t with ⟨n, hn⟩ | ⟨m, hm⟩
      · rw [hn]; exact ⟨some n, rfl⟩
      · rw [hm]; exact ⟨none, rfl⟩

/-- Without a recognized speed suffix parse_speed cannot reach the float()
call, so it returns None or the fallback 0. -/
theorem parse_speed_no_suffix (s : String) (h : hasSpeedSuffix s = false) :
    parse_speed s = Except.ok none ∨ parse_speed s = Except.ok (some ⟨0, 1⟩) := by
  unfold parse_speed
  simp only [hasSpeedSuffix, Bool.or_eq_false_iff] at h
  obtain ⟨⟨⟨h1, h2⟩, h3⟩, h4⟩ := h
  simp only [h1, h2, h3, h4, Bool.false_eq_true, if_false]
  by_cases ht : pyTruthyStr s = false
  · exact Or.inl (by rw [if_pos ht])
  · exact Or.inr (by rw [if_neg ht])

/-- When the first token parses as a float, parse_speed succeeds on every
branch. -/
theorem parse_speed_float_ok (s : String) (x : Frac)
    (hx : pyFloat (firstToken s) = Except.ok x) :
    ∃ v, parse_speed s = Except.ok v := by
  unfold parse_speed
  split_ifs <;> first
    | exact ⟨_, rfl⟩
    | exact ⟨_, by rw [hx]; rfl⟩

/-- When the numeric group parses as a float, parse_data_size succeeds on
every branch. -/
theorem parse_data_size_float_ok (s : String) (x : Frac)
    (hx : pyFloat (String.mk ((stripList s.toList).takeWhile
      (fun c => c.isDigit || c == '.'))) = Except.ok x) :
    ∃ v, parse_data_size s = Except.ok v := by
  unfold parse_data_size
  dsimp only
  split_ifs
  · exact ⟨_, rfl⟩
  · exact ⟨_, rfl⟩
  · cases hm : matchUnit (((stripList s.toList).dropWhile
        (fun c => c.isDigit || c == '.')).dropWhile isPySpace) with
    | none => exact ⟨_, rfl⟩
    | some u => exact ⟨_, by rw [hx]; rfl⟩

/-- When the unit alternation does not match, parse_data_size returns None
without reaching the float() call. -/
theorem parse_data_size_no_unit (s : String)
    (h : matchUnit (((stripList s.toList).dropWhile
      (fun c => c.isDigit || c == '.')).dropWhile isPySpace) = none) :
    parse_data_size s = Except.ok none := by
  unfold parse_data_size
  dsimp only
  split_ifs
  · rfl
  · rfl
  · rw [h]

/-- Token safety for get_seconds_duration: no HH:MM:SS-shaped token and no
calendar keyword past position zero, so the loop never builds a
relativedelta from a possibly-None as_int result. -/
def durationSafeTokens (s : String) : Bool :=
  (splitWs (lowerList s.toList)).enum.all (fun ip =>
    (countColon ip.2 != 2)
    && (decide (ip.1 = 0)
        || !(pyStartsWith ip.2 "year" || pyStartsWith ip.2 "month"
             || pyStartsWith ip.2 "week" || pyStartsWith ip.2 "day")))

/-- A safe token contributes the zero delta without raising. -/
theorem durationStep_safe (parts : List String) (i : Nat) (part : String)
    (hc : (countColon part != 2) = true)
    (hs : (decide (i = 0)
        || !(pyStartsWith part "year" || pyStartsWith part "month"
             || pyStartsWith part "week" || pyStartsWith part "day")) = true) :
    durationStep parts i part = Except.ok RelDelta.zero := by
  unfold durationStep
  rw [if_neg (by simpa using hc)]
  rcases Bool.or_eq_true_iff.mp hs with h0 | hrest
  · rw [if_pos (by simpa using of_decide_eq_true h0)]
    rfl
  · have hx : (pyStartsWith part "year" || pyStartsWith part "month"
        || pyStartsWith part "week" || pyStartsWith part "day") = false := by
      revert hrest
      cases pyStartsWith part "year" || pyStartsWith part "month"
        || pyStartsWith part "week" || pyStartsWith part "day" <;> simp
    simp only [Bool.or_eq_false_iff] at hx
    obtain ⟨⟨⟨hy, hm⟩, hw⟩, hd⟩ := hx
    by_cases hi : (i == 0) = true
    · rw [if_pos hi]
      rfl
    · rw [if_neg hi, if_neg (by simp [hy]), if_neg (by simp [hm]),
        if_neg (by simp [hw]), if_neg (by simp [hd])]
      rfl

/-- Adding the zero delta is the identity. -/
theorem RelDelta.add_zero (a : RelDelta) : RelDelta.add a RelDelta.zero = a := by
  cases a
  simp [RelDelta.add, RelDelta.zero]

/-- The duration fold succeeds with the zero delta when every enumerated
token is safe. -/
theorem durationFold_safe_aux (parts : List String) :
    ∀ (l : List (Nat × String)) (acc : RelDelta),
      (∀ ip ∈ l, durationStep parts ip.1 ip.2 = Except.ok RelDelta.zero) →
      (l.foldlM (fun acc ip => do
        let d ← durationStep parts ip.1 ip.2
        pure (RelDelta.add acc d)) acc) = Except.ok acc := by
  intro l
  induction l with
  | nil => intro acc _; rfl
  | cons ip rest ih =>
    intro acc h
    have hstep := h ip (List.mem_cons_self ip rest)
    simp only [List.foldlM, hstep]
    show (rest.foldlM _ (RelDelta.add acc RelDelta.zero)) = Except.ok acc
    rw [RelDelta.add_zero]
    exact ih acc (fun x hx => h x (List.mem_cons_of_mem ip hx))

/-- Day numbers of datetimes within the supported year range stay between
the ordinals of 0001-01-01 and 9999-12-31. -/
theorem daysFromCivil_bounds (y m d : Int) (hy1 : 1 ≤ y) (hy2 : y ≤ 9999)
    (hm1 : 1 ≤ m) (hm2 : m ≤ 12) (hd1 : 1 ≤ d) (hd2 : d ≤ 31) :
    -719162 ≤ daysFromCivil y m d ∧ daysFromCivil y m d ≤ 2932896 := by
  unfold daysFromCivil
  dsimp only
  split_ifs <;> omega

/-- Subtracting the zero relativedelta from a valid datetime passes every
range check and leaves its absolute second count unchanged. -/
theorem dateSubSeconds_zero (now : PyDateTime) (h : ValidDate now) :
    dateSubSeconds now RelDelta.zero = Except.ok (secondsOfDate now) := by
  obtain ⟨hy1, hy2, hm1, hm2, hd1, hd2, hh1, hh2, hmi1, hmi2, hs1, hs2⟩ := h
  unfold dateSubSeconds RelDelta.zero
  dsimp only
  have hq : (now.year * 12 + (now.month - 1) - (0 * 12 + 0)) / 12 = now.year := by
    omega
  have hr : (now.year * 12 + (now.month - 1) - (0 * 12 + 0)) % 12 + 1 = now.month := by
    omega
  rw [hq, hr]
  rw [if_neg (by simp only [Bool.or_eq_true, decide_eq_true_eq, not_or]; omega)]
  rw [if_neg (by simp only [Bool.or_eq_true, decide_eq_true_eq, not_or]; omega)]
  have hd : min now.day (monthLen now.year now.month) = now.day :=
    min_eq_left hd2
  rw [hd]
  have heta : (⟨now.year, now.month, now.day, now.hour, now.minute,
      now.second⟩ : PyDateTime) = now := rfl
  rw [heta]
  have hT : secondsOfDate now - (0 * 86400 + 0 * 3600 + 0 * 60 + 0)
      = secondsOfDate now := by omega
  rw [hT]
  have hdlim : 1 ≤ now.day ∧ now.day ≤ 31 := by
    refine ⟨hd1, le_trans hd2 ?_⟩
    unfold monthLen isLeapYear
    split_ifs <;> omega
  have hb := daysFromCivil_bounds now.year now.month now.day hy1 hy2 hm1 hm2
    hdlim.1 hdlim.2
  have hfloor : secondsOfDate now / 86400
      = daysFromCivil now.year now.month now.day := by
    unfold secondsOfDate
    omega
  rw [if_neg (by simp only [Bool.or_eq_true, decide_eq_true_eq, not_or]; omega)]

/-- On a valid current datetime get_seconds_duration never raises on
inputs without a colon-triple or calendar-keyword token pattern. -/
theorem get_seconds_duration_safe_total (now : PyDateTime) (s : String)
    (hv : ValidDate now) (h : durationSafeTokens s = true) :
    ∃ v, get_seconds_duration now s = Except.ok v := by
  unfold get_seconds_duration
  by_cases ht : pyTruthyStr s = false
  · rw [if_pos ht]; exact ⟨none, rfl⟩
  · rw [if_neg ht]
    have hall : ∀ ip ∈ (splitWs (lowerList s.toList)).enum,
        durationStep (splitWs (lowerList s.toList)) ip.1 ip.2
          = Except.ok RelDelta.zero := by
      intro ip hip
      have := (List.all_eq_true.mp h) ip hip
      exact durationStep_safe _ ip.1 ip.2
        (Bool.and_eq_true_iff.mp this).1 (Bool.and_eq_true_iff.mp this).2
    have hfold : durationFold (splitWs (lowerList s.toList))
        = Except.ok RelDelta.zero :=
      durationFold_safe_aux _ _ RelDelta.zero hall
    rw [hfold]
    refine ⟨some (secondsOfDate now - secondsOfDate now), ?_⟩
    show Except.bind (dateSubSeconds now RelDelta.zero)
        (fun sub => Except.ok (some (secondsOfDate now - sub)))
      = Except.ok (some (secondsOfDate now - secondsOfDate now))
    rw [dateSubSeconds_zero now hv]
    rfl

/-- The placeholder token contributes nothing: on a valid current datetime
the duration of a lone dash is zero seconds, not an error. -/
theorem get_seconds_duration_dash (now : PyDateTime) (h : ValidDate now) :
    get_seconds_duration now "-" = Except.ok (some 0) := by
  unfold get_seconds_duration
  rw [if_neg (by decide)]
  rw [show durationFold (splitWs (lowerList ("-" : String).toList))
    = Except.ok RelDelta.zero from by decide]
  show Except.bind (dateSubSeconds now RelDelta.zero)
      (fun sub => Except.ok (some (secondsOfDate now - sub)))
    = Except.ok (some 0)
  rw [dateSubSeconds_zero now h]
  show Except.ok (some (secondsOfDate now - secondsOfDate now)) = Except.ok (some 0)
  simp

/-- C2 counterexample: the claim says every normalizer returns a value and
never raises for every string; parse_speed raises ValueError when a
recognized suffix follows a non-numeric token, parse_data_size when the
numeric group is made only of dots, and get_seconds_duration raises
TypeError on a colon-triple with non-numeric fields. -/
theorem normalizer_totality_counterexample :
    parse_speed "x kbps"
      = Except.error (.valueError "could not convert string to float: x")
    ∧ parse_data_size ". B"
      = Except.error (.valueError "could not convert string to float: .")
    ∧ get_seconds_duration ⟨2026, 10, 12, 14, 30, 5⟩ "a:b:c"
      = Except.error
        (.typeError "unsupported operand type for relativedelta field: NoneType") := by
  refine ⟨?_, ?_, ?_⟩ <;> decide

/-- C2 amended: as_int, hex_as_int and get_band never raise on any input.
parse_speed and parse_data_size return a value (None or the documented
fallback) on the empty string, the placeholder dash, arbitrary text free
of their numeric patterns, and whenever the numeric token inside a
recognized pattern parses; they raise only when a recognized unit pattern
wraps an unparseable numeric token.  get_seconds_duration returns a value
on falsy input, the dash, and token lists free of colon-triples and
calendar keywords; it raises TypeError when a recognized pattern wraps an
unparseable token, and a parseable token does not guarantee a value: a
calendar offset pushing the shifted date outside the datetime year range
1-9999 raises ValueError, and an oversized time offset raises
OverflowError from the timedelta day-magnitude limit, while an in-range
offset such as five days yields its exact second count. -/
theorem normalizers_total_amended :
    (∀ s, ∃ v, as_int s = Except.ok v)
    ∧ (∀ s, ∃ v, hex_as_int s = Except.ok v)
    ∧ parse_speed "" = Except.ok none
    ∧ parse_speed "-" = Except.ok (some ⟨0, 1⟩)
    ∧ (∀ s, hasSpeedSuffix s = false →
        parse_speed s = Except.ok none ∨ parse_speed s = Except.ok (some ⟨0, 1⟩))
    ∧ (∀ s x, pyFloat (firstToken s) = Except.ok x → ∃ v, parse_speed s = Except.ok v)
    ∧ parse_data_size "" = Except.ok none
    ∧ parse_data_size "-" = Except.ok none
    ∧ (∀ s, matchUnit (((stripList s.toList).dropWhile
        (fun c => c.isDigit || c == '.')).dropWhile isPySpace) = none →
        parse_data_size s = Except.ok none)
    ∧ (∀ s x, pyFloat (String.mk ((stripList s.toList).takeWhile
        (fun c => c.isDigit || c == '.'))) = Except.ok x →
        ∃ v, parse_data_size s = Except.ok v)
    ∧ get_band (some "garbage") = none
    ∧ get_band none = none
    ∧ (∀ now s, ValidDate now → durationSafeTokens s = true →
        ∃ v, get_seconds_duration now s = Except.ok v)
    ∧ (∀ now, ValidDate now → get_seconds_duration now "-" = Except.ok (some 0))
    ∧ get_seconds_duration ⟨2026, 10, 12, 14, 30, 5⟩ "5 days"
        = Except.ok (some 432000)
    ∧ get_seconds_duration ⟨2026, 10, 12, 14, 30, 5⟩ "5000 years"
        = Except.error (.valueError "year -2974 is out of range")
    ∧ (∃ msg, get_seconds_duration ⟨2026, 10, 12, 14, 30, 5⟩ "90000000000000:00:00"
        = Except.error (.overflowError msg)) :=
  ⟨as_int_total, hex_as_int_total, by decide, by decide, parse_speed_no_suffix,
    parse_speed_float_ok, by decide, by decide, parse_data_size_no_unit,
    parse_data_size_float_ok, by decide, rfl, get_seconds_duration_safe_total,
    get_seconds_duration_dash, by decide, by decide,
    ⟨"days=-3750000000000; must have magnitude <= 999999999", by decide⟩⟩

/-- C2 amended witness: the amended totality facts evaluated at concrete
inputs, with every hypothesis discharged by computation. -/
theorem normalizers_total_amended_witness :
    (∃ v, as_int (some "-") = Except.ok v)
    ∧ (parse_speed "no suffix here" = Except.ok none
       ∨ parse_speed "no suffix here" = Except.ok (some ⟨0, 1⟩))
    ∧ (∃ v, parse_speed "2.5 Gbps" = Except.ok v)
    ∧ parse_data_size "xyz" = Except.ok none
    ∧ (∃ v, parse_data_size "7 KB" = Except.ok v)
    ∧ (∃ v, get_seconds_duration ⟨2026, 10, 12, 14, 30, 5⟩ "up 5 hours"
        = Except.ok v)
    ∧ get_seconds_duration ⟨2026, 10, 12, 14, 30, 5⟩ "-" = Except.ok (some 0) := by
  obtain ⟨h1, h2, h3, h4, h5, h6, h7, h8, h9, h10, h11, h12, h13, h14, h15, h16, h17⟩ :=
    normalizers_total_amended
  exact ⟨h1 (some "-"), h5 "no suffix here" (by decide),
    h6 "2.5 Gbps" ⟨25, 10⟩ (by decide), h9 "xyz" (by decide),
    h10 "7 KB" ⟨7, 1⟩ (by decide),
    h13 ⟨2026, 10, 12, 14, 30, 5⟩ "up 5 hours" (by decide) (by decide),
    h14 ⟨2026, 10, 12, 14, 30, 5⟩ (by decide)⟩

/-- Setting a key stores its value. -/
theorem dictGet_dictSet_self {α : Type} (d : List (String × α)) (k : String) (v : α) :
    dictGet (dictSet d k v) k = some v := by
  induction d with
  | nil => simp [dictGet, dictSet, List.lookup]
  | cons kv t ih =>
    obtain ⟨k1, v1⟩ := kv
    unfold dictSet
    by_cases h : (k1 == k) = true
    · rw [if_pos h]
      simp [dictGet, List.lookup, eq_of_beq h]
    · rw [if_neg h]
      have hke : (k == k1) = false := by
        cases he : k == k1 with
        | false => rfl
        | true =>
          exact absurd (show (k1 == k) = true from by
            rw [eq_of_beq he]; exact beq_self_eq_true k1) h
      simp only [dictGet, List.lookup, hke] at ih ⊢
      exact ih

/-- Setting a key leaves every other key unchanged. -/
theorem dictGet_dictSet_ne {α : Type} (d : List (String × α)) (k k' : String) (v : α)
    (h : k' ≠ k) : dictGet (dictSet d k v) k' = dictGet d k' := by
  induction d with
  | nil =>
    simp [dictGet, dictSet, List.lookup,
      show (k' == k) = false from beq_eq_false_iff_ne.mpr h]
  | cons kv t ih =>
    obtain ⟨k1, v1⟩ := kv
    unfold dictSet
    by_cases hk : (k1 == k) = true
    · rw [if_pos hk]
      have : (k' == k1) = false :=
        beq_eq_false_iff_ne.mpr (fun he => h (he.trans (eq_of_beq hk)))
      simp [dictGet, List.lookup, this]
    · rw [if_neg hk]
      cases he : (k' == k1) with
      | true => simp [dictGet, List.lookup, he]
      | false => simpa [dictGet, List.lookup, he] using ih

/-- The keys of a dictionary. -/
def dictKeys {α : Type} (d : List (String × α)) : List String := d.map Prod.fst

/-- Unfolding lemma for the keys of a cons cell. -/
theorem dictKeys_cons {α : Type} (kv : String × α) (t : List (String × α)) :
    dictKeys (kv :: t) = kv.1 :: dictKeys t := rfl

/-- Folding the base-10 digit accumulator from an arbitrary start. -/
theorem natOfDigits_foldl_init (l : List Char) :
    ∀ a : Nat, l.foldl (fun x c => 10 * x + digitVal c) a
      = a * 10 ^ l.length + natOfDigits l := by
  induction l with
  | nil => intro a; simp [natOfDigits]
  | cons c t ih =>
    intro a
    show t.foldl _ (10 * a + digitVal c) = _
    rw [ih (10 * a + digitVal c)]
    have h2 : natOfDigits (c :: t) = digitVal c * 10 ^ t.length + natOfDigits t := by
      show t.foldl _ (10 * 0 + digitVal c) = _
      rw [ih (10 * 0 + digitVal c)]
      ring
    rw [h2, List.length_cons]
    ring

/-- Value of a digit list with one digit prepended. -/
theorem natOfDigits_cons (c : Char) (t : List Char) :
    natOfDigits (c :: t) = digitVal c * 10 ^ t.length + natOfDigits t := by
  show t.foldl _ (10 * 0 + digitVal c) = _
  rw [natOfDigits_foldl_init t (10 * 0 + digitVal c)]
  ring

/-- The digit character of a value below ten decodes back to that value. -/
theorem digitVal_digitChar (d : Nat) (h : d < 10) :
    digitVal (Nat.digitChar d) = d := by
  interval_cases d <;> decide

/-- Decode correctness of the core decimal-digit emitter: with enough fuel
it prepends exactly the digits of n to the accumulator. -/
theorem natOfDigits_toDigitsCore :
    ∀ (fuel n : Nat) (acc : List Char), n < fuel →
      natOfDigits (Nat.toDigitsCore 10 fuel n acc)
        = n * 10 ^ acc.length + natOfDigits acc := by
  intro fuel
  induction fuel with
  | zero => intro n acc h; omega
  | succ f ih =>
    intro n acc h
    unfold Nat.toDigitsCore
    dsimp only
    by_cases h0 : n / 10 = 0
    · rw [if_pos h0]
      have hlt : n % 10 < 10 := Nat.mod_lt n (by norm_num)
      rw [natOfDigits_cons, digitVal_digitChar _ hlt]
      have hd : n % 10 = n := by omega
      rw [hd]
    · rw [if_neg h0]
      have hf : n / 10 < f := by omega
      rw [ih (n / 10) (Nat.digitChar (n % 10) :: acc) hf]
      have hlt : n % 10 < 10 := Nat.mod_lt n (by norm_num)
      rw [natOfDigits_cons, digitVal_digitChar _ hlt, List.length_cons]
      have key : (n / 10) * 10 ^ (acc.length + 1) + (n % 10) * 10 ^ acc.length
          = n * 10 ^ acc.length := by
        rw [pow_succ]
        have hx : 10 * (n / 10) + n % 10 = n := Nat.div_add_mod n 10
        calc (n / 10) * (10 ^ acc.length * 10) + (n % 10) * 10 ^ acc.length
            = (10 * (n / 10) + n % 10) * 10 ^ acc.length := by ring
          _ = n * 10 ^ acc.length := by rw [hx]
      rw [← add_assoc, key]

/-- Reading back the decimal digits of n yields n. -/
theorem natOfDigits_toDigits (n : Nat) :
    natOfDigits (Nat.toDigits 10 n) = n := by
  have h := natOfDigits_toDigitsCore (n + 1) n [] (Nat.lt_succ_self n)
  simpa [Nat.toDigits, natOfDigits] using h

/-- The character data of the decimal representation of n. -/
theorem nat_repr_data (n : Nat) : (Nat.repr n).data = Nat.toDigits 10 n := rfl

/-- toString on a natural number is its decimal representation. -/
theorem toString_nat (n : Nat) : toString n = Nat.repr n := rfl

/-- Decimal representations of distinct naturals differ. -/
theorem nat_repr_inj (a b : Nat) (h : Nat.repr a = Nat.repr b) : a = b := by
  have hd : Nat.toDigits 10 a = Nat.toDigits 10 b := by
    rw [← nat_repr_data, ← nat_repr_data, h]
  have ha := natOfDigits_toDigits a
  rw [hd, natOfDigits_toDigits b] at ha
  exact ha.symm

/-- The digit emitter never shortens its accumulator. -/
theorem toDigitsCore_length_le :
    ∀ (fuel n : Nat) (acc : List Char),
      acc.length ≤ (Nat.toDigitsCore 10 fuel n acc).length := by
  intro fuel
  induction fuel with
  | zero => intro n acc; exact le_refl _
  | succ f ih =>
    intro n acc
    unfold Nat.toDigitsCore
    dsimp only
    by_cases h0 : n / 10 = 0
    · rw [if_pos h0, List.length_cons]; omega
    · rw [if_neg h0]
      have := ih (n / 10) (Nat.digitChar (n % 10) :: acc)
      rw [List.length_cons] at this
      omega

/-- A decimal representation is never the empty string. -/
theorem repr_length_pos (n : Nat) : 0 < (Nat.repr n).length := by
  show 0 < (Nat.toDigits 10 n).length
  unfold Nat.toDigits Nat.toDigitsCore
  dsimp only
  by_cases h0 : n / 10 = 0
  · rw [if_pos h0]; simp
  · rw [if_neg h0]
    exact toDigitsCore_length_le n (n / 10) [Nat.digitChar (n % 10)]

/-- Distinct indices from 1 up give distinct add_unique candidate keys:
the bare key is shorter than any suffixed key, and two suffixed keys share
the prefix, so they agree only when the decimal suffixes agree. -/
theorem uniqueCandidate_inj (key : String) (i j : Nat) (hi : 1 ≤ i) (hj : 1 ≤ j)
    (h : uniqueCandidate key i = uniqueCandidate key j) : i = j := by
  unfold uniqueCandidate at h
  by_cases hi1 : i ≤ 1
  · by_cases hj1 : j ≤ 1
    · omega
    · rw [if_pos hi1, if_neg hj1] at h
      have hlen := congrArg String.length h
      rw [String.length_append, toString_nat] at hlen
      have hp := repr_length_pos j
      omega
  · by_cases hj1 : j ≤ 1
    · rw [if_neg hi1, if_pos hj1] at h
      have hlen := congrArg String.length h
      rw [String.length_append, toString_nat] at hlen
      have hp := repr_length_pos i
      omega
    · rw [if_neg hi1, if_neg hj1] at h
      have hd := congrArg String.data h
      rw [String.data_append, String.data_append] at hd
      have hd2 := List.append_cancel_left hd
      have he : toString i = toString j := String.ext hd2
      rw [toString_nat, toString_nat] at he
      exact nat_repr_inj i j he

/-- A successful lookup means the key is among the dictionary keys. -/
theorem dictGet_mem_dictKeys {α : Type} (d : List (String × α)) (k : String)
    (v : α) (h : dictGet d k = some v) : k ∈ dictKeys d := by
  induction d with
  | nil => simp [dictGet, List.lookup] at h
  | cons p t ih =>
    obtain ⟨k1, v1⟩ := p
    by_cases he : k = k1
    · rw [dictKeys_cons]
      exact List.mem_cons.mpr (Or.inl he)
    · have hb : (k == k1) = false := by simpa using he
      simp only [dictGet, List.lookup, hb] at h
      rw [dictKeys_cons]
      exact List.mem_cons.mpr (Or.inr (ih h))

/-- Pigeonhole for add_unique: among the data.length + 1 candidate keys
examined by the loop at least one is falsy, because each truthy candidate
is a distinct key of the dictionary and there are only data.length keys. -/
theorem add_unique_free_slot (data : List (String × String)) (key : String) :
    ∃ j, 1 ≤ j ∧ j ≤ data.length + 1
      ∧ truthyAt data (uniqueCandidate key j) = false := by
  by_contra hcon
  push_neg at hcon
  have hall : ∀ j, 1 ≤ j → j ≤ data.length + 1 →
      uniqueCandidate key j ∈ dictKeys data := by
    intro j h1 h2
    have ht := hcon j h1 h2
    cases hg : dictGet data (uniqueCandidate key j) with
    | none => exact absurd (by unfold truthyAt; rw [hg]) ht
    | some v => exact dictGet_mem_dictKeys data _ v hg
  set L := (List.range (data.length + 1)).map (fun i => uniqueCandidate key (i + 1))
    with hLdef
  have hinj : Function.Injective (fun i => uniqueCandidate key (i + 1)) := by
    intro a b hab
    have := uniqueCandidate_inj key (a + 1) (b + 1) (by omega) (by omega) hab
    omega
  have hnd : L.Nodup := List.Nodup.map hinj (List.nodup_range _)
  have hsub : ∀ x ∈ L, x ∈ dictKeys data := by
    intro x hx
    rw [hLdef, List.mem_map] at hx
    obtain ⟨i, hi, hxe⟩ := hx
    rw [List.mem_range] at hi
    rw [← hxe]
    exact hall (i + 1) (by omega) (by omega)
  have hsubF : L.toFinset ⊆ (dictKeys data).toFinset := by
    intro x hx
    rw [List.mem_toFinset] at hx ⊢
    exact hsub x hx
  have hc1 : L.toFinset.card = data.length + 1 := by
    rw [List.toFinset_card_of_nodup hnd, hLdef, List.length_map, List.length_range]
  have hc2 : (dictKeys data).toFinset.card ≤ (dictKeys data).length :=
    List.toFinset_card_le (dictKeys data)
  have hc3 : (dictKeys data).length = data.length := by simp [dictKeys]
  have hcard := Finset.card_le_card hsubF
  omega

/-- The add_unique while loop returns the first falsy candidate whenever
one exists within the fuel range. -/
theorem addUniqueLoop_finds (data : List (String × String)) (key : String) :
    ∀ (fuel i : Nat),
      (∃ j, i ≤ j ∧ j < i + fuel ∧ truthyAt data (uniqueCandidate key j) = false) →
      ∃ j0, i ≤ j0 ∧ truthyAt data (uniqueCandidate key j0) = false
        ∧ (∀ j, i ≤ j → j < j0 → truthyAt data (uniqueCandidate key j) = true)
        ∧ addUniqueLoop data key fuel i = uniqueCandidate key j0 := by
  intro fuel
  induction fuel with
  | zero =>
    rintro i ⟨j, hj1, hj2, _⟩
    omega
  | succ f ih =>
    rintro i ⟨j, hj1, hj2, hj3⟩
    by_cases hc : truthyAt data (uniqueCandidate key i) = true
    · have hne : j ≠ i := fun he => by rw [he, hc] at hj3; cases hj3
      obtain ⟨j0, h1, h2, h3, h4⟩ := ih (i + 1) ⟨j, by omega, by omega, hj3⟩
      refine ⟨j0, by omega, h2, ?_, ?_⟩
      · intro j' hj'1 hj'2
        rcases Nat.eq_or_lt_of_le hj'1 with he | hlt
        · rw [← he]; exact hc
        · exact h3 j' hlt hj'2
      · unfold addUniqueLoop
        rw [if_pos hc]
        exact h4
    · refine ⟨i, le_refl i, by simpa using hc, by omega, ?_⟩
      unfold addUniqueLoop
      rw [if_neg hc]

/-- C8 counterexample: the claim says the extractor never overwrites a
previously recorded label and disambiguates every later occurrence with a
numeric suffix; a label first recorded from a one-cell row holds the empty
string, which is falsy, so its next occurrence overwrites it in place and
no suffixed key is created. -/
theorem add_unique_overwrite_counterexample :
    parseTableRows [["SCC"], ["SCC", "X"]] = [("SCC", "X")]
    ∧ dictGet (parseTableRows [["SCC"], ["SCC", "X"]]) "SCC2" = none := by
  constructor <;> decide

/-- C8 amended: add_unique stores the value under the first candidate key
(label, then label2, label3, ...) whose current entry is falsy - absent or
recorded with the empty string - and every label whose recorded value is
nonempty keeps its value unchanged; only an empty-valued label can be
overwritten in place.  A falsy candidate always exists within the fuel the
source supplies (a dict of n entries cannot make n+1 distinct candidates
truthy), so the conclusion holds on every input. -/
theorem add_unique_amended (data : List (String × String)) (key value : String) :
    ∃ j0, 1 ≤ j0
      ∧ truthyAt data (uniqueCandidate key j0) = false
      ∧ (∀ j, 1 ≤ j → j < j0 → truthyAt data (uniqueCandidate key j) = true)
      ∧ add_unique data key value = dictSet data (uniqueCandidate key j0) value
      ∧ (∀ k w, dictGet data k = some w → w ≠ "" →
          dictGet (add_unique data key value) k = some w) := by
  obtain ⟨j, hj1, hj2, hj3⟩ := add_unique_free_slot data key
  obtain ⟨j0, h1, h2, h3, h4⟩ :=
    addUniqueLoop_finds data key (data.length + 1) 1 ⟨j, hj1, by omega, hj3⟩
  refine ⟨j0, h1, h2, h3, ?_, ?_⟩
  · unfold add_unique
    rw [h4]
  · intro k w hk hw
    unfold add_unique
    rw [h4]
    have hne : k ≠ uniqueCandidate key j0 := by
      intro he
      rw [← he] at h2
      unfold truthyAt at h2
      rw [hk] at h2
      simp only [bne_iff_ne, ne_eq, decide_eq_false_iff_not, not_not] at h2
      exact hw (by simpa using h2)
    rw [dictGet_dictSet_ne data (uniqueCandidate key j0) k value hne]
    exact hk

/-- C8 amended witness: on a dict where SCC holds a nonempty value, a new
SCC occurrence lands on SCC2 and the recorded value stays unchanged. -/
theorem add_unique_amended_witness :
    ∃ j0, 1 ≤ j0
      ∧ truthyAt [("SCC", "v1")] (uniqueCandidate "SCC" j0) = false
      ∧ (∀ j, 1 ≤ j → j < j0 →
          truthyAt [("SCC", "v1")] (uniqueCandidate "SCC" j) = true)
      ∧ add_unique [("SCC", "v1")] "SCC" "X"
        = dictSet [("SCC", "v1")] (uniqueCandidate "SCC" j0) "X"
      ∧ (∀ k w, dictGet [("SCC", "v1")] k = some w → w ≠ "" →
          dictGet (add_unique [("SCC", "v1")] "SCC" "X") k = some w) :=
  add_unique_amended [("SCC", "v1")] "SCC" "X"

/-- A merge step on another key leaves a lookup unchanged. -/
theorem mergeStep_get_ne (acc : List (String × PyVal)) (kv : String × PyVal)
    (k : String) (h : k ≠ kv.1) :
    dictGet (mergeStep acc kv) k = dictGet acc k := by
  unfold mergeStep
  by_cases h1 : (kv.1 == "connected_devices") = true
  · rw [if_pos h1]
    exact dictGet_dictSet_ne acc kv.1 k kv.2 h
  · rw [if_neg h1]
    cases hget : dictGet acc kv.1 with
    | none => exact dictGet_dictSet_ne acc kv.1 k kv.2 h
    | some cur =>
      dsimp only
      split_ifs
      · exact dictGet_dictSet_ne acc kv.1 k kv.2 h
      · rfl

/-- The merge step at a non-connected-devices key keeps a truthy,
non-Unknown accumulated value. -/
theorem mergeStep_keep (acc : List (String × PyVal)) (k2 : String) (w : PyVal)
    (hc : (k2 == "connected_devices") = false) (v : PyVal)
    (hv : dictGet acc k2 = some v) (h1 : v.truthy = true)
    (h2 : (v == PyVal.str "Unknown") = false) :
    dictGet (mergeStep acc (k2, w)) k2 = some v := by
  unfold mergeStep
  dsimp only
  rw [if_neg (by simp [hc]), hv]
  dsimp only
  rw [if_neg (by simp [h1, h2])]
  exact hv

/-- The merge step at the connected-devices key always stores the HTML
value. -/
theorem mergeStep_conn (acc : List (String × PyVal)) (w : PyVal) :
    dictGet (mergeStep acc ("connected_devices", w)) "connected_devices" = some w := by
  unfold mergeStep
  dsimp only
  rw [if_pos (by decide)]
  exact dictGet_dictSet_self acc "connected_devices" w

/-- Merging the fixed-shape HTML record keeps a truthy, non-Unknown
JSON firmware value and stores the HTML connected-devices count. -/
theorem mergeHtml_mk_fw_conn (ci : List (String × PyVal))
    (m nm ip mc fwH bh stt : PyVal) (n : Int) (v : PyVal)
    (hv : dictGet ci "firmware_version" = some v)
    (h1 : v.truthy = true) (h2 : (v == PyVal.str "Unknown") = false) :
    dictGet (mergeHtmlInto ci (mkHtmlClientInfo m nm ip mc fwH bh n stt))
        "firmware_version" = some v
    ∧ dictGet (mergeHtmlInto ci (mkHtmlClientInfo m nm ip mc fwH bh n stt))
        "connected_devices" = some (PyVal.int n) := by
  have e1 : ("firmware_version" : String) ≠ "status" := by decide
  have e2 : ("firmware_version" : String) ≠ "connected_devices" := by decide
  have e3 : ("firmware_version" : String) ≠ "backhaul" := by decide
  have e4 : ("firmware_version" : String) ≠ "mac_address" := by decide
  have e5 : ("firmware_version" : String) ≠ "ip_address" := by decide
  have e6 : ("firmware_version" : String) ≠ "name" := by decide
  have e7 : ("firmware_version" : String) ≠ "model" := by decide
  have e8 : ("connected_devices" : String) ≠ "status" := by decide
  have e9 : (("firmware_version" : String) == "connected_devices") = false := by decide
  simp only [mergeHtmlInto, mkHtmlClientInfo, List.foldl]
  constructor
  · rw [mergeStep_get_ne _ _ _ e1, mergeStep_get_ne _ _ _ e2,
      mergeStep_get_ne _ _ _ e3]
    refine mergeStep_keep _ _ _ e9 v ?_ h1 h2
    rw [mergeStep_get_ne _ _ _ e4, mergeStep_get_ne _ _ _ e5,
      mergeStep_get_ne _ _ _ e6, mergeStep_get_ne _ _ _ e7]
    exact hv
  · rw [mergeStep_get_ne _ _ _ e8]
    exact mergeStep_conn _ _

/-- An update never drops a binding of the source: a key bound in the
source (whose keys are distinct) ends up with the source value. -/
theorem dictGet_dictUpdate_not_mem {α : Type} (d src : List (String × α))
    (k : String) (h : k ∉ dictKeys src) :
    dictGet (dictUpdate d src) k = dictGet d k := by
  induction src generalizing d with
  | nil => rfl
  | cons kv rest ih =>
    have h1 : k ≠ kv.1 := by
      intro he
      exact h (by rw [he]; exact List.mem_cons_self _ _)
    have h2 : k ∉ dictKeys rest := by
      intro hm
      exact h (List.mem_cons_of_mem _ hm)
    show dictGet (dictUpdate (dictSet d kv.1 kv.2) rest) k = dictGet d k
    rw [ih (dictSet d kv.1 kv.2) h2]
    exact dictGet_dictSet_ne d kv.1 k kv.2 h1

/-- Updating a dictionary with a source whose keys are distinct makes
every source binding win. -/
theorem dictGet_dictUpdate_mem {α : Type} (d src : List (String × α))
    (k : String) (v : α) (hnodup : (dictKeys src).Nodup)
    (hk : dictGet src k = some v) :
    dictGet (dictUpdate d src) k = some v := by
  induction src generalizing d with
  | nil => cases hk
  | cons kv rest ih =>
    simp only [dictKeys, List.map_cons, List.nodup_cons] at hnodup
    obtain ⟨hnot, hrest⟩ := hnodup
    show dictGet (dictUpdate (dictSet d kv.1 kv.2) rest) k = some v
    by_cases he : (k == kv.1) = true
    · have hkeq : k = kv.1 := eq_of_beq he
      have hv : v = kv.2 := by
        have : dictGet (kv :: rest) k = some kv.2 := by
          obtain ⟨k1, v1⟩ := kv
          simp only [dictGet, List.lookup, he]
        rw [hk] at this
        exact Option.some.inj this
      subst hv
      rw [dictGet_dictUpdate_not_mem (dictSet d kv.1 kv.2) rest k
        (by rw [hkeq]; exact hnot), hkeq]
      exact dictGet_dictSet_self d kv.1 kv.2
    · have hk' : dictGet rest k = some v := by
        obtain ⟨k1, v1⟩ := kv
        simp only [dictGet, List.lookup, he] at hk
        exact hk
      exact ih (dictSet d kv.1 kv.2) hrest hk' 

/-- Key membership after an assignment. -/
theorem mem_dictKeys_dictSet {α : Type} (d : List (String × α)) (k k' : String)
    (v : α) : k' ∈ dictKeys (dictSet d k v) ↔ k' ∈ dictKeys d ∨ k' = k := by
  induction d with
  | nil => simp [dictKeys, dictSet]
  | cons kv t ih =>
    obtain ⟨k1, v1⟩ := kv
    unfold dictSet
    by_cases h : (k1 == k) = true
    · rw [if_pos h]
      have hke := eq_of_beq h
      subst hke
      simp only [dictKeys_cons, List.mem_cons]
      tauto
    · rw [if_neg h]
      simp only [dictKeys_cons, List.mem_cons]
      rw [ih]
      tauto

/-- Assignment preserves distinctness of keys. -/
theorem nodup_dictKeys_dictSet {α : Type} (d : List (String × α)) (k : String)
    (v : α) (h : (dictKeys d).Nodup) : (dictKeys (dictSet d k v)).Nodup := by
  induction d with
  | nil => simp [dictKeys, dictSet]
  | cons kv t ih =>
    obtain ⟨k1, v1⟩ := kv
    simp only [dictKeys_cons, List.nodup_cons] at h
    obtain ⟨hnot, ht⟩ := h
    unfold dictSet
    by_cases hb : (k1 == k) = true
    · rw [if_pos hb]
      simp only [dictKeys_cons, List.nodup_cons]
      exact ⟨hnot, ht⟩
    · rw [if_neg hb]
      simp only [dictKeys_cons, List.nodup_cons]
      refine ⟨?_, ih ht⟩
      intro hm
      rcases (mem_dictKeys_dictSet t k k1 v).mp hm with hm1 | hm1
      · exact hnot hm1
      · exact absurd (by rw [hm1]; exact beq_self_eq_true k) hb

/-- A merge step preserves distinctness of keys. -/
theorem nodup_mergeStep (acc : List (String × PyVal)) (kv : String × PyVal)
    (h : (dictKeys acc).Nodup) : (dictKeys (mergeStep acc kv)).Nodup := by
  unfold mergeStep
  by_cases h1 : (kv.1 == "connected_devices") = true
  · rw [if_pos h1]
    exact nodup_dictKeys_dictSet acc kv.1 kv.2 h
  · rw [if_neg h1]
    cases dictGet acc kv.1 with
    | none => exact nodup_dictKeys_dictSet acc kv.1 kv.2 h
    | some cur =>
      dsimp only
      split_ifs
      · exact nodup_dictKeys_dictSet acc kv.1 kv.2 h
      · exact h

/-- The whole HTML merge preserves distinctness of keys. -/
theorem nodup_mergeHtmlInto (hi : List (String × PyVal)) :
    ∀ ci, (dictKeys ci).Nodup → (dictKeys (mergeHtmlInto ci hi)).Nodup := by
  induction hi with
  | nil => exact fun ci h => h
  | cons kv rest ih =>
    intro ci h
    exact ih (mergeStep ci kv) (nodup_mergeStep ci kv h)

/-- Evaluation of processClient when the matching loop finds a MAC match:
the matched entry is updated in place with client_info. -/
theorem processClient_byMac (st : MeshState)
    (jsonData : List (String × List (String × PyVal)))
    (client_mac : String) (dp : Bool) (hi : Option (List (String × PyVal)))
    (mac : String)
    (hz : (client_mac == "000000000000") = false)
    (hfm : findMatch client_mac (clientInfo3 jsonData client_mac dp hi)
      st.mesh_devices = Except.ok (.byMac mac)) :
    processClient st jsonData client_mac dp hi
      = Except.ok
          { st with
            mesh_devices :=
              updateEntry st.mesh_devices mac
                (clientInfo3 jsonData client_mac dp hi) } := by
  unfold processClient
  rw [if_neg (by simp [hz])]
  dsimp only
  rw [hfm]
  rfl

/-- Lookup facts and key distinctness for the client_info built from a
single-client JSON record and the fixed-shape HTML detail record. -/
theorem clientInfo3_facts (c : MeshClientJson) (m nm ip mc bh stt : PyVal)
    (fwHtml : String) (n : Int) (fwJson : String)
    (hid : pyTruthyStr c.id = true)
    (hfw : c.sysreport.firmware = PyVal.str fwJson)
    (hfw1 : fwJson ≠ "") (hfw2 : fwJson ≠ "Unknown") :
    dictGet (clientInfo3 (buildJsonClientData [c]) c.id true
        (some (mkHtmlClientInfo m nm ip mc (PyVal.str fwHtml) bh n stt)))
      "firmware_version" = some (PyVal.str fwJson)
    ∧ dictGet (clientInfo3 (buildJsonClientData [c]) c.id true
        (some (mkHtmlClientInfo m nm ip mc (PyVal.str fwHtml) bh n stt)))
      "connected_devices" = some (PyVal.int n)
    ∧ (dictKeys (clientInfo3 (buildJsonClientData [c]) c.id true
        (some (mkHtmlClientInfo m nm ip mc (PyVal.str fwHtml) bh n stt)))).Nodup := by
  have hbuild : buildJsonClientData [c] = [(formatMac c.id, mkJsonClientInfo c)] := by
    simp [buildJsonClientData, List.foldl, hid, dictSet]
  have hget0 : dictGet [(formatMac c.id, mkJsonClientInfo c)] (formatMac c.id)
      = some (mkJsonClientInfo c) := by
    simp [dictGet, List.lookup]
  have hfw0 : dictGet (mkJsonClientInfo c) "firmware_version"
      = some c.sysreport.firmware := rfl
  have hnd0 : (dictKeys (mkJsonClientInfo c)).Nodup := by
    rw [show dictKeys (mkJsonClientInfo c)
      = ["name", "model", "firmware_version", "ip_address", "mac_address",
         "hardware", "status", "led_status"] from rfl]
    decide
  have htr : (PyVal.str fwJson).truthy = true := by
    simp [PyVal.truthy, bne_iff_ne, hfw1]
  have hun : (PyVal.str fwJson == PyVal.str "Unknown") = false := by
    refine beq_eq_false_iff_ne.mpr ?_
    intro he
    exact hfw2 (PyVal.str.inj he)
  have hmerge := mergeHtml_mk_fw_conn (mkJsonClientInfo c) m nm ip mc
    (PyVal.str fwHtml) bh stt n (PyVal.str fwJson)
    (by rw [hfw0, hfw]) htr hun
  have hnd1 : (dictKeys (mergeHtmlInto (mkJsonClientInfo c)
      (mkHtmlClientInfo m nm ip mc (PyVal.str fwHtml) bh n stt))).Nodup :=
    nodup_mergeHtmlInto _ _ hnd0
  unfold clientInfo3
  dsimp only
  rw [hbuild, hget0]
  simp only [Option.getD_some, if_true]
  set ci1 := mergeHtmlInto (mkJsonClientInfo c)
    (mkHtmlClientInfo m nm ip mc (PyVal.str fwHtml) bh n stt) with hci1
  have hfwne : ("firmware_version" : String) ≠ "name" := by decide
  have hcone : ("connected_devices" : String) ≠ "name" := by decide
  have hfwma : ("firmware_version" : String) ≠ "mac_address" := by decide
  have hcoma : ("connected_devices" : String) ≠ "mac_address" := by decide
  by_cases hn : (!((dictGet ci1 "name").getD PyVal.none).truthy) = true
  · rw [if_pos hn]
    refine ⟨?_, ?_, ?_⟩
    · rw [dictGet_dictSet_ne _ _ _ _ hfwma, dictGet_dictSet_ne _ _ _ _ hfwne]
      exact hmerge.1
    · rw [dictGet_dictSet_ne _ _ _ _ hcoma, dictGet_dictSet_ne _ _ _ _ hcone]
      exact hmerge.2
    · exact nodup_dictKeys_dictSet _ _ _ (nodup_dictKeys_dictSet _ _ _ hnd1)
  · rw [if_neg hn]
    refine ⟨?_, ?_, ?_⟩
    · rw [dictGet_dictSet_ne _ _ _ _ hfwma]
      exact hmerge.1
    · rw [dictGet_dictSet_ne _ _ _ _ hcoma]
      exact hmerge.2
    · exact nodup_dictKeys_dictSet _ _ _ hnd1

/-- C4: feeding the reconciler an HTML-derived device record keyed by a MAC
that differs from the JSON client id only in letter case and punctuation
yields exactly one merged device: the JSON firmware_version wins over the
conflicting HTML-sourced value (being truthy and not Unknown), while the
HTML-sourced connected_devices count is preserved because the JSON record
has no such key. -/
theorem mesh_dedup_fw_conn (macKey : String) (htmlDev : List (String × PyVal))
    (c : MeshClientJson) (m nm ip mc bh stt : PyVal) (fwHtml : String)
    (n : Int) (fwJson : String)
    (hid : pyTruthyStr c.id = true)
    (hz : (c.id == "000000000000") = false)
    (hmac : normMacKey macKey = upperStr c.id)
    (hfw : c.sysreport.firmware = PyVal.str fwJson)
    (hfw1 : fwJson ≠ "") (hfw2 : fwJson ≠ "Unknown") :
    ∃ merged,
      processClient ⟨[(macKey, htmlDev)], Option.none⟩ (buildJsonClientData [c])
          c.id true (some (mkHtmlClientInfo m nm ip mc (PyVal.str fwHtml) bh n stt))
        = Except.ok ⟨[(macKey, merged)], Option.none⟩
      ∧ dictGet merged "firmware_version" = some (PyVal.str fwJson)
      ∧ dictGet merged "connected_devices" = some (PyVal.int n) := by
  obtain ⟨hfwf, hconn, hnd⟩ :=
    clientInfo3_facts c m nm ip mc bh stt fwHtml n fwJson hid hfw hfw1 hfw2
  set ci3 := clientInfo3 (buildJsonClientData [c]) c.id true
    (some (mkHtmlClientInfo m nm ip mc (PyVal.str fwHtml) bh n stt)) with hci3
  have hfm : findMatch c.id ci3 [(macKey, htmlDev)] = Except.ok (.byMac macKey) := by
    unfold findMatch
    rw [if_pos (show (normMacKey macKey == upperStr c.id) = true from by
      rw [hmac]; exact beq_self_eq_true _)]
  have hpc := processClient_byMac ⟨[(macKey, htmlDev)], Option.none⟩
    (buildJsonClientData [c]) c.id true
    (some (mkHtmlClientInfo m nm ip mc (PyVal.str fwHtml) bh n stt)) macKey hz hfm
  have hupd : updateEntry [(macKey, htmlDev)] macKey ci3
      = [(macKey, dictUpdate htmlDev ci3)] := by
    simp [updateEntry, beq_self_eq_true]
  refine ⟨dictUpdate htmlDev ci3, ?_, ?_, ?_⟩
  · rw [hpc, hupd]
  · exact dictGet_dictUpdate_mem htmlDev ci3 _ _ hnd hfwf
  · exact dictGet_dictUpdate_mem htmlDev ci3 _ _ hnd hconn

/-- C4 witness: concrete records with MAC spellings aa:bb:cc:dd:ee:ff and
AABBCCDDEEFF, a JSON firmware 2.1.0 conflicting with HTML firmware 1.0.0
and an HTML connected-devices count of 5. -/
theorem mesh_dedup_fw_conn_witness :
    ∃ merged,
      processClient
          ⟨[("aa:bb:cc:dd:ee:ff",
             [("name", PyVal.str "Node1"), ("firmware_version", PyVal.str "1.0.0"),
              ("status", PyVal.str "online")])], Option.none⟩
          (buildJsonClientData
            [⟨"AABBCCDDEEFF", PyVal.str "Node1", PyVal.str "connected",
              ⟨"RE1200 V1.0", PyVal.none, PyVal.none, PyVal.str "2.1.0",
               PyVal.str "192.168.1.2", PyVal.str "1"⟩⟩])
          "AABBCCDDEEFF" true
          (some (mkHtmlClientInfo PyVal.none (PyVal.str "Node1") PyVal.none
            PyVal.none (PyVal.str "1.0.0") (PyVal.str "5G") 5 (PyVal.str "online")))
        = Except.ok ⟨[("aa:bb:cc:dd:ee:ff", merged)], Option.none⟩
      ∧ dictGet merged "firmware_version" = some (PyVal.str "2.1.0")
      ∧ dictGet merged "connected_devices" = some (PyVal.int 5) :=
  mesh_dedup_fw_conn "aa:bb:cc:dd:ee:ff"
    [("name", PyVal.str "Node1"), ("firmware_version", PyVal.str "1.0.0"),
     ("status", PyVal.str "online")]
    ⟨"AABBCCDDEEFF", PyVal.str "Node1", PyVal.str "connected",
      ⟨"RE1200 V1.0", PyVal.none, PyVal.none, PyVal.str "2.1.0",
       PyVal.str "192.168.1.2", PyVal.str "1"⟩⟩
    PyVal.none (PyVal.str "Node1") PyVal.none PyVal.none (PyVal.str "5G")
    (PyVal.str "online") "1.0.0" 5 "2.1.0"
    (by decide) (by decide) (by decide) rfl (by decide) (by decide)
